import Mathlib

/-! Shallow embedding of the Creators Nepal / Patron repository: the SQL
helper functions and counter-maintenance triggers, the client-side state
updates of the React pages, the slug generator of the post form, and the
backend cleanup script.  Tables are lists of rows; uuids and timestamps
are natural numbers; SQL `integer` and `numeric` columns are integers. -/

/-- Row of the `users` table (only the fields the embedded SQL reads). -/
structure UserRow where
  id : Nat
  deriving Repr, DecidableEq

/-- Row of the `posts` table (only the fields the embedded SQL reads). -/
structure PostRow where
  id : Nat
  user_id : Nat
  series_id : Option Nat
  is_published : Bool
  deleted_at : Option Nat
  created_at : Nat
  likes_count : Int
  comments_count : Int
  deriving Repr, DecidableEq

/-- Row of the `series` table. -/
structure SeriesRow where
  id : Nat
  user_id : Nat
  deleted_at : Option Nat
  posts_count : Int
  deriving Repr, DecidableEq

/-- Row of the `creator_profiles` table. -/
structure CreatorProfileRow where
  user_id : Nat
  likes_count : Int
  followers_count : Int
  posts_count : Int
  series_count : Int
  total_earnings : Int
  supporters_count : Int
  deriving Repr, DecidableEq

/-- Row of the `post_likes` join table. -/
structure PostLikeRow where
  post_id : Nat
  user_id : Nat
  deriving Repr, DecidableEq

/-- Row of the `post_comments` table. -/
structure PostCommentRow where
  post_id : Nat
  user_id : Nat
  deriving Repr, DecidableEq

/-- Row of the `follows` join table. -/
structure FollowRow where
  follower_id : Nat
  following_id : Nat
  deriving Repr, DecidableEq

/-- Row of the `supporter_transactions` table. -/
structure SupporterTransactionRow where
  supporter_id : Nat
  creator_id : Nat
  amount : Int
  status : String
  deriving Repr, DecidableEq

/-- Row of the `subscriptions` table. -/
structure SubscriptionRow where
  id : Nat
  creator_id : Nat
  status : String
  deriving Repr, DecidableEq

/-- The database state: one list of rows per table. -/
structure DB where
  users : List UserRow
  posts : List PostRow
  series : List SeriesRow
  creator_profiles : List CreatorProfileRow
  post_likes : List PostLikeRow
  post_comments : List PostCommentRow
  follows : List FollowRow
  supporter_transactions : List SupporterTransactionRow
  subscriptions : List SubscriptionRow
  deriving Repr, DecidableEq

/-! Counter-maintenance trigger functions from the SQL file.  Each SQL
trigger is `AFTER INSERT OR DELETE ... FOR EACH ROW`; we embed the
insert branch and the delete branch of each trigger function as separate
state transformers, applied to the state in which the row change has
already happened.  `GREATEST(c - 1, 0)` is `max (c - 1) 0`. -/

/-- Insert branch of trigger function `update_post_likes_count`:
`UPDATE posts SET likes_count = likes_count + 1 WHERE id = NEW.post_id`,
then `UPDATE creator_profiles cp SET likes_count = likes_count + 1 FROM
posts p WHERE p.id = NEW.post_id AND cp.user_id = p.user_id`. -/
def update_post_likes_count_ins (db : DB) (new : PostLikeRow) : DB :=
  let db1 := { db with posts := db.posts.map (fun (p : PostRow) =>
    if p.id = new.post_id then { p with likes_count := p.likes_count + 1 } else p) }
  { db1 with creator_profiles := db1.creator_profiles.map (fun (cp : CreatorProfileRow) =>
    if db1.posts.any (fun (p : PostRow) => decide (p.id = new.post_id ∧ cp.user_id = p.user_id))
    then { cp with likes_count := cp.likes_count + 1 } else cp) }

/-- Delete branch of trigger function `update_post_likes_count`, with
`GREATEST(likes_count - 1, 0)` on both `posts` and `creator_profiles`. -/
def update_post_likes_count_del (db : DB) (old : PostLikeRow) : DB :=
  let db1 := { db with posts := db.posts.map (fun (p : PostRow) =>
    if p.id = old.post_id then { p with likes_count := max (p.likes_count - 1) 0 } else p) }
  { db1 with creator_profiles := db1.creator_profiles.map (fun (cp : CreatorProfileRow) =>
    if db1.posts.any (fun (p : PostRow) => decide (p.id = old.post_id ∧ cp.user_id = p.user_id))
    then { cp with likes_count := max (cp.likes_count - 1) 0 } else cp) }

/-- Insert into `post_likes` followed by the `post_likes_count_trigger`. -/
def insert_post_like (db : DB) (new : PostLikeRow) : DB :=
  update_post_likes_count_ins { db with post_likes := new :: db.post_likes } new

/-- Delete of one row `old` from `post_likes` (given as the split
`la ++ old :: lb` of the table) followed by the trigger. -/
def delete_post_like (db : DB) (old : PostLikeRow) (la lb : List PostLikeRow) : DB :=
  update_post_likes_count_del { db with post_likes := la ++ lb } old

/-- Insert branch of trigger function `update_post_comments_count`. -/
def update_post_comments_count_ins (db : DB) (new : PostCommentRow) : DB :=
  { db with posts := db.posts.map (fun (p : PostRow) =>
    if p.id = new.post_id then { p with comments_count := p.comments_count + 1 } else p) }

/-- Delete branch of trigger function `update_post_comments_count`. -/
def update_post_comments_count_del (db : DB) (old : PostCommentRow) : DB :=
  { db with posts := db.posts.map (fun (p : PostRow) =>
    if p.id = old.post_id then { p with comments_count := max (p.comments_count - 1) 0 } else p) }

/-- Insert into `post_comments` followed by `post_comments_count_trigger`. -/
def insert_post_comment (db : DB) (new : PostCommentRow) : DB :=
  update_post_comments_count_ins { db with post_comments := new :: db.post_comments } new

/-- Delete of one row from `post_comments` followed by the trigger. -/
def delete_post_comment (db : DB) (old : PostCommentRow) (la lb : List PostCommentRow) : DB :=
  update_post_comments_count_del { db with post_comments := la ++ lb } old

/-- Insert branch of trigger function `update_followers_count`:
`UPDATE creator_profiles SET followers_count = followers_count + 1
WHERE user_id = NEW.following_id`. -/
def update_followers_count_ins (db : DB) (new : FollowRow) : DB :=
  { db with creator_profiles := db.creator_profiles.map (fun (cp : CreatorProfileRow) =>
    if cp.user_id = new.following_id then { cp with followers_count := cp.followers_count + 1 } else cp) }

/-- Delete branch of trigger function `update_followers_count`. -/
def update_followers_count_del (db : DB) (old : FollowRow) : DB :=
  { db with creator_profiles := db.creator_profiles.map (fun (cp : CreatorProfileRow) =>
    if cp.user_id = old.following_id
    then { cp with followers_count := max (cp.followers_count - 1) 0 } else cp) }

/-- Insert into `follows` followed by `followers_count_trigger`. -/
def insert_follow (db : DB) (new : FollowRow) : DB :=
  update_followers_count_ins { db with follows := new :: db.follows } new

/-- Delete of one row from `follows` followed by the trigger. -/
def delete_follow (db : DB) (old : FollowRow) (la lb : List FollowRow) : DB :=
  update_followers_count_del { db with follows := la ++ lb } old

/-- Insert branch of trigger function `update_series_posts_count`:
`UPDATE series SET posts_count = posts_count + 1 WHERE id = NEW.series_id`,
then `UPDATE creator_profiles SET posts_count = posts_count + 1 WHERE
user_id = NEW.user_id`.  A `NULL` `NEW.series_id` matches no series row. -/
def update_series_posts_count_ins (db : DB) (new : PostRow) : DB :=
  let db1 := { db with series := db.series.map (fun (s : SeriesRow) =>
    if new.series_id = some s.id then { s with posts_count := s.posts_count + 1 } else s) }
  { db1 with creator_profiles := db1.creator_profiles.map (fun (cp : CreatorProfileRow) =>
    if cp.user_id = new.user_id then { cp with posts_count := cp.posts_count + 1 } else cp) }

/-- Delete branch of trigger function `update_series_posts_count`. -/
def update_series_posts_count_del (db : DB) (old : PostRow) : DB :=
  let db1 := { db with series := db.series.map (fun (s : SeriesRow) =>
    if old.series_id = some s.id then { s with posts_count := max (s.posts_count - 1) 0 } else s) }
  { db1 with creator_profiles := db1.creator_profiles.map (fun (cp : CreatorProfileRow) =>
    if cp.user_id = old.user_id then { cp with posts_count := max (cp.posts_count - 1) 0 } else cp) }

/-- Insert into `posts` followed by `series_posts_count_trigger`. -/
def insert_post (db : DB) (new : PostRow) : DB :=
  update_series_posts_count_ins { db with posts := new :: db.posts } new

/-- Delete of one row from `posts` followed by the trigger. -/
def delete_post (db : DB) (old : PostRow) (la lb : List PostRow) : DB :=
  update_series_posts_count_del { db with posts := la ++ lb } old

/-- Insert branch of trigger function `update_creator_series_count`. -/
def update_creator_series_count_ins (db : DB) (new : SeriesRow) : DB :=
  { db with creator_profiles := db.creator_profiles.map (fun (cp : CreatorProfileRow) =>
    if cp.user_id = new.user_id then { cp with series_count := cp.series_count + 1 } else cp) }

/-- Delete branch of trigger function `update_creator_series_count`. -/
def update_creator_series_count_del (db : DB) (old : SeriesRow) : DB :=
  { db with creator_profiles := db.creator_profiles.map (fun (cp : CreatorProfileRow) =>
    if cp.user_id = old.user_id then { cp with series_count := max (cp.series_count - 1) 0 } else cp) }

/-- Insert into `series` followed by `creator_series_count_trigger`. -/
def insert_series (db : DB) (new : SeriesRow) : DB :=
  update_creator_series_count_ins { db with series := new :: db.series } new

/-- Delete of one row from `series` followed by the trigger. -/
def delete_series (db : DB) (old : SeriesRow) (la lb : List SeriesRow) : DB :=
  update_creator_series_count_del { db with series := la ++ lb } old

/-- Insert into `supporter_transactions`.  The SQL file declares no
trigger on this table, so the insert changes nothing else. -/
def insert_supporter_transaction (db : DB) (new : SupporterTransactionRow) : DB :=
  { db with supporter_transactions := new :: db.supporter_transactions }

/-! Row counts that the trigger-maintained counters denormalize. -/

/-- Number of `post_likes` rows for the post `pid`. -/
def postLikeRows (db : DB) (pid : Nat) : Nat :=
  db.post_likes.countP (fun (pl : PostLikeRow) => decide (pl.post_id = pid))

/-- Number of `post_likes` rows on posts of the creator `uid`. -/
def creatorLikeRows (db : DB) (uid : Nat) : Nat :=
  db.post_likes.countP (fun (pl : PostLikeRow) =>
    db.posts.any (fun (p : PostRow) => decide (p.id = pl.post_id ∧ uid = p.user_id)))

/-- Number of `post_comments` rows for the post `pid`. -/
def postCommentRows (db : DB) (pid : Nat) : Nat :=
  db.post_comments.countP (fun (pc : PostCommentRow) => decide (pc.post_id = pid))

/-- Number of `follows` rows whose `following_id` is `uid`. -/
def followerRows (db : DB) (uid : Nat) : Nat :=
  db.follows.countP (fun (f : FollowRow) => decide (f.following_id = uid))

/-- Number of `posts` rows in the series `sid`. -/
def seriesPostRows (db : DB) (sid : Nat) : Nat :=
  db.posts.countP (fun (p : PostRow) => decide (p.series_id = some sid))

/-- Number of `posts` rows of the creator `uid`. -/
def creatorPostRows (db : DB) (uid : Nat) : Nat :=
  db.posts.countP (fun (p : PostRow) => decide (p.user_id = uid))

/-- Number of `series` rows of the creator `uid`. -/
def creatorSeriesRows (db : DB) (uid : Nat) : Nat :=
  db.series.countP (fun (s : SeriesRow) => decide (s.user_id = uid))

/-! Synchronization invariants: each denormalized counter equals the
corresponding row count. -/

/-- Every `posts.likes_count` equals the number of likes of that post. -/
def postsLikesSynced (db : DB) : Prop :=
  ∀ p ∈ db.posts, p.likes_count = (postLikeRows db p.id : Int)

/-- Every `creator_profiles.likes_count` equals the number of likes on
the creator's posts. -/
def creatorLikesSynced (db : DB) : Prop :=
  ∀ cp ∈ db.creator_profiles, cp.likes_count = (creatorLikeRows db cp.user_id : Int)

/-- Every `posts.comments_count` equals the number of comments on it. -/
def postsCommentsSynced (db : DB) : Prop :=
  ∀ p ∈ db.posts, p.comments_count = (postCommentRows db p.id : Int)

/-- Every `creator_profiles.followers_count` equals the number of
`follows` rows pointing at the creator. -/
def followersSynced (db : DB) : Prop :=
  ∀ cp ∈ db.creator_profiles, cp.followers_count = (followerRows db cp.user_id : Int)

/-- Every `series.posts_count` equals the number of posts in it. -/
def seriesPostsSynced (db : DB) : Prop :=
  ∀ s ∈ db.series, s.posts_count = (seriesPostRows db s.id : Int)

/-- Every `creator_profiles.posts_count` equals the creator's number of
`posts` rows. -/
def creatorPostsSynced (db : DB) : Prop :=
  ∀ cp ∈ db.creator_profiles, cp.posts_count = (creatorPostRows db cp.user_id : Int)

/-- Every `creator_profiles.series_count` equals the creator's number of
`series` rows. -/
def creatorSeriesSynced (db : DB) : Prop :=
  ∀ cp ∈ db.creator_profiles, cp.series_count = (creatorSeriesRows db cp.user_id : Int)

/-- All trigger-maintained counters in the database are nonnegative. -/
def countersNonneg (db : DB) : Prop :=
  (∀ p ∈ db.posts, 0 ≤ p.likes_count ∧ 0 ≤ p.comments_count) ∧
  (∀ s ∈ db.series, 0 ≤ s.posts_count) ∧
  (∀ cp ∈ db.creator_profiles,
    0 ≤ cp.likes_count ∧ 0 ≤ cp.followers_count ∧ 0 ≤ cp.posts_count ∧ 0 ≤ cp.series_count)

/-! The feed-composition SQL functions. -/

/-- One output row of the feed functions (the fields of the SQL
`RETURNS TABLE` that the embedded columns populate). -/
structure FeedRow where
  post_id : Nat
  series_id : Option Nat
  creator_id : Nat
  post_created_at : Nat
  likes_count : Int
  comments_count : Int
  user_has_liked : Bool
  user_follows_creator : Bool
  deriving Repr, DecidableEq

/-- Descending `created_at` order used by `ORDER BY p.created_at DESC`. -/
def feedLe (a b : FeedRow) : Bool :=
  b.post_created_at ≤ a.post_created_at

/-- The output row built from a joined `(posts, users, series)` triple
in `get_discovery_feed` and `get_user_feed`. -/
def feedRowOf (db : DB) (user_uuid : Nat) (p : PostRow) : FeedRow :=
  { post_id := p.id
    series_id := p.series_id
    creator_id := p.user_id
    post_created_at := p.created_at
    likes_count := p.likes_count
    comments_count := p.comments_count
    user_has_liked :=
      db.post_likes.any (fun (pl : PostLikeRow) =>
        decide (pl.post_id = p.id ∧ pl.user_id = user_uuid))
    user_follows_creator :=
      db.follows.any (fun (f : FollowRow) =>
        decide (f.following_id = p.user_id ∧ f.follower_id = user_uuid)) }

/-- The joined and filtered row set of `get_discovery_feed`:
`posts INNER JOIN users INNER JOIN series` restricted by
`is_published = true AND p.deleted_at IS NULL AND s.deleted_at IS NULL`. -/
def discoveryJoinRows (db : DB) (user_uuid : Nat) : List FeedRow :=
  db.posts.flatMap (fun (p : PostRow) =>
    db.users.flatMap (fun (u : UserRow) =>
      db.series.flatMap (fun (s : SeriesRow) =>
        if p.user_id = u.id ∧ p.series_id = some s.id ∧
            p.is_published = true ∧ p.deleted_at = none ∧ s.deleted_at = none
        then [feedRowOf db user_uuid p] else [])))

/-- SQL function `get_discovery_feed(user_uuid, feed_limit)`: the joined
rows ordered by `p.created_at DESC` with `LIMIT feed_limit`. -/
def get_discovery_feed (db : DB) (user_uuid : Nat) (feed_limit : Nat) : List FeedRow :=
  ((discoveryJoinRows db user_uuid).mergeSort feedLe).take feed_limit

/-- The joined and filtered row set of `get_user_feed`: like the
discovery feed plus `INNER JOIN follows f ON f.following_id = p.user_id
AND f.follower_id = user_uuid`. -/
def userFeedJoinRows (db : DB) (user_uuid : Nat) : List FeedRow :=
  db.posts.flatMap (fun (p : PostRow) =>
    db.users.flatMap (fun (u : UserRow) =>
      db.series.flatMap (fun (s : SeriesRow) =>
        db.follows.flatMap (fun (f : FollowRow) =>
          if p.user_id = u.id ∧ p.series_id = some s.id ∧
              f.following_id = p.user_id ∧ f.follower_id = user_uuid ∧
              p.is_published = true ∧ p.deleted_at = none ∧ s.deleted_at = none
          then [feedRowOf db user_uuid p] else []))))

/-- SQL function `get_user_feed(user_uuid, feed_limit, feed_offset)`:
the joined rows ordered by `p.created_at DESC` with `LIMIT feed_limit
OFFSET feed_offset`. -/
def get_user_feed (db : DB) (user_uuid : Nat) (feed_limit feed_offset : Nat) : List FeedRow :=
  (((userFeedJoinRows db user_uuid).mergeSort feedLe).drop feed_offset).take feed_limit

/-! The `get_creator_stats` SQL function (its `total_earnings` output).
The function left-joins `creator_profiles`, `supporter_transactions`,
`subscriptions`, `posts` and `series` against the one `users` row and
aggregates over the joined row set. -/

/-- A SQL `LEFT JOIN` contribution: the matching rows, or a single
`NULL` row when there is no match. -/
def leftJoinOpt {α : Type} (l : List α) : List (Option α) :=
  match l with
  | [] => [none]
  | _ => l.map some

/-- The summand `CASE WHEN st.status = 'completed' THEN st.amount ELSE 0
END` of the earnings aggregate (`ELSE 0` also covers the `NULL` row of
the left join). -/
def earningsCase (st : Option SupporterTransactionRow) : Int :=
  match st with
  | some stv => if stv.status = "completed" then stv.amount else 0
  | none => 0

/-- The per-row earnings contributions of the left-joined row set of
`get_creator_stats`: every `users` row with the given id, left-joined
with the matching `creator_profiles`, `supporter_transactions`,
`subscriptions`, non-deleted `posts` and non-deleted `series` rows. -/
def creatorStatsEarningsRows (db : DB) (creator_uuid : Nat) : List Int :=
  (db.users.filter (fun (u : UserRow) => decide (u.id = creator_uuid))).flatMap
    (fun (_u : UserRow) =>
      (leftJoinOpt (db.creator_profiles.filter
          (fun (cp : CreatorProfileRow) => decide (cp.user_id = creator_uuid)))).flatMap
        (fun (_cp : Option CreatorProfileRow) =>
          (leftJoinOpt (db.supporter_transactions.filter
              (fun (st : SupporterTransactionRow) => decide (st.creator_id = creator_uuid)))).flatMap
            (fun (st : Option SupporterTransactionRow) =>
              (leftJoinOpt (db.subscriptions.filter
                  (fun (sub : SubscriptionRow) => decide (sub.creator_id = creator_uuid)))).flatMap
                (fun (_sub : Option SubscriptionRow) =>
                  (leftJoinOpt (db.posts.filter
                      (fun (p : PostRow) =>
                        decide (p.user_id = creator_uuid ∧ p.deleted_at = none)))).flatMap
                    (fun (_p : Option PostRow) =>
                      (leftJoinOpt (db.series.filter
                          (fun (s : SeriesRow) =>
                            decide (s.user_id = creator_uuid ∧ s.deleted_at = none)))).map
                        (fun (_s : Option SeriesRow) => earningsCase st))))))

/-- The `total_earnings` column of `get_creator_stats(creator_uuid)`:
`COALESCE(SUM(CASE WHEN st.status = 'completed' THEN st.amount ELSE 0
END), 0)` over the left-joined row set; `none` when no `users` row has
the given id (the function then returns no row). -/
def getCreatorStatsTotalEarnings (db : DB) (creator_uuid : Nat) : Option Int :=
  if (db.users.filter (fun (u : UserRow) => decide (u.id = creator_uuid))).isEmpty
  then none
  else some (creatorStatsEarningsRows db creator_uuid).sum

/-- Modelled from the spec: the total earnings of a creator as the spec
states them, the sum of the amounts of exactly that creator's
`supporter_transactions` rows whose status is `completed`, each row
counted once. -/
def specTotalEarnings (db : DB) (creator_uuid : Nat) : Int :=
  ((db.supporter_transactions.filter (fun (st : SupporterTransactionRow) =>
    decide (st.creator_id = creator_uuid ∧ st.status = "completed"))).map
      (fun st => st.amount)).sum

/-! Client-side state updates of the creator-profile page and the post
card (the success paths of `handleFollow`, `handleSupport` and
`handleLike`). -/

/-- The creator-profile object held by the client page. -/
structure ClientCreatorProfile where
  followers_count : Int
  total_earnings : Int
  supporters_count : Int
  deriving Repr, DecidableEq

/-- Success path of `handleFollow`: toggles `isFollowing` and rewrites
`followers_count` with client-side arithmetic
(`Math.max(0, n - 1)` on unfollow, `n + 1` on follow). -/
def handleFollowUpdate (isFollowing : Bool) (cp : ClientCreatorProfile) :
    Bool × ClientCreatorProfile :=
  if isFollowing then
    (false, { cp with followers_count := max 0 (cp.followers_count - 1) })
  else
    (true, { cp with followers_count := cp.followers_count + 1 })

/-- Success path of `handleSupport`: inserts a `supporter_transactions`
row with `status := 'pending'`, then rewrites the held profile with
client-side arithmetic (`total_earnings + amount`,
`supporters_count + 1`). -/
def handleSupportUpdate (db : DB) (supporter creator : Nat) (amount : Int)
    (_msg : Option String) (cp : ClientCreatorProfile) : DB × ClientCreatorProfile :=
  let db1 := insert_supporter_transaction db
    { supporter_id := supporter, creator_id := creator, amount := amount, status := "pending" }
  (db1, { cp with total_earnings := cp.total_earnings + amount,
                  supporters_count := cp.supporters_count + 1 })

/-- Success path of `handleLike` in `PostCard`: toggles `isLiked` and
rewrites the held `likesCount` with client-side arithmetic
(`Math.max(0, prev - 1)` on unlike, `prev + 1` on like). -/
def handleLikeUpdate (existingLike : Bool) (likesCount : Int) : Bool × Int :=
  if existingLike then (false, max 0 (likesCount - 1)) else (true, likesCount + 1)

/-! The auth-state-change handler of `AuthProvider`. -/

/-- The user object carried by an auth session. -/
structure SessionUser where
  id : Nat
  deriving Repr, DecidableEq

/-- An auth session delivered by the external auth provider. -/
structure SessionObj where
  user : SessionUser
  deriving Repr, DecidableEq

/-- The local state mirrored by `AuthProvider` (profile rows kept as
identifiers of the fetched rows). -/
structure AuthState where
  session : Option SessionObj
  user : Option SessionUser
  userProfile : Option Nat
  creatorProfile : Option Nat
  loading : Bool
  deriving Repr, DecidableEq

/-- The `onAuthStateChange` callback of `AuthProvider`: stores the
delivered session, sets `user := session?.user ?? null`, clears both
profiles when there is no session, initiates a background
`loadUserProfile(session.user.id)` when there is one, and sets
`loading := false`.  The second component is the id of the profile
fetch that was initiated, if any. -/
def onAuthStateChange (s : AuthState) (session : Option SessionObj) :
    AuthState × Option Nat :=
  let s1 := { s with session := session,
                     user := session.map (fun (ss : SessionObj) => ss.user) }
  match session with
  | some sess => ({ s1 with loading := false }, some sess.user.id)
  | none =>
    ({ s1 with userProfile := none, creatorProfile := none, loading := false }, none)

/-! The `fetchPosts` function of `AppDataContext`. -/

/-- The result of one provider query, as the client sees it. -/
inductive QueryResult (α : Type) where
  | ok (data : α)
  | err (msg : String)
  deriving Repr, DecidableEq

/-- The `fetchPosts` closure of `AppDataProvider`, applied to the prior
`posts` state and the single query response: on a provider error the
error is logged and the state is left unchanged; on success the state is
replaced.  The last component counts the database queries issued by the
invocation (the body issues exactly one, with no retry). -/
def fetchPosts (prev : Option (List PostRow)) (response : QueryResult (List PostRow)) :
    Option (List PostRow) × List String × Nat :=
  match response with
  | .err m => (prev, ["Error fetching posts: " ++ m], 1)
  | .ok d => (some d, [], 1)

/-! The slug generator inside the post form's `handleSubmit`. -/

/-- Character class of the JavaScript regex `\s` (whitespace). -/
def isJsWs (c : Char) : Bool :=
  c = ' ' ∨ ('\t' ≤ c ∧ c ≤ '\x0d') ∨ c = ' ' ∨ c = ' ' ∨
  (Char.ofNat 0x2000 ≤ c ∧ c ≤ Char.ofNat 0x200a) ∨
  c = Char.ofNat 0x2028 ∨ c = Char.ofNat 0x2029 ∨ c = Char.ofNat 0x202f ∨
  c = Char.ofNat 0x205f ∨ c = Char.ofNat 0x3000 ∨ c = Char.ofNat 0xfeff

/-- Characters kept by `.replace(/[^a-z0-9\s-]/g, '')`. -/
def keepChar (c : Char) : Bool :=
  ('a' ≤ c ∧ c ≤ 'z') ∨ ('0' ≤ c ∧ c ≤ '9') ∨ isJsWs c = true ∨ c = '-'

/-- The replacement `.replace(/\s+/g, '-')`: each maximal run of
whitespace becomes a single `'-'`.  The flag records whether the
previous character was part of a whitespace run. -/
def collapseWsAux : Bool → List Char → List Char
  | _, [] => []
  | prevWs, c :: cs =>
    if isJsWs c then
      if prevWs then collapseWsAux true cs else '-' :: collapseWsAux true cs
    else c :: collapseWsAux false cs

/-- The replacement of every maximal run of `'-'` by a single `'-'`
(the third `replace` of the pipeline, with pattern `-+`). -/
def collapseDashAux : Bool → List Char → List Char
  | _, [] => []
  | prevDash, c :: cs =>
    if c = '-' then
      if prevDash then collapseDashAux true cs else '-' :: collapseDashAux true cs
    else c :: collapseDashAux false cs

/-- The final `.trim()`: whitespace dropped from both ends. -/
def jsTrim (l : List Char) : List Char :=
  (((l.dropWhile isJsWs).reverse).dropWhile isJsWs).reverse

/-- The slug generated from a title in `handleSubmit`: lowercase the
title, drop every character outside `[a-z0-9\s-]`, replace whitespace
runs by `'-'`, replace hyphen runs by `'-'`, then trim. -/
def generateSlug (title : String) : List Char :=
  jsTrim (collapseDashAux false (collapseWsAux false
    ((title.data.map Char.toLower).filter keepChar)))

/-- A character admissible in a finished slug: lowercase ASCII letter,
digit, or hyphen. -/
def isSlugChar (c : Char) : Bool :=
  ('a' ≤ c ∧ c ≤ 'z') ∨ ('0' ≤ c ∧ c ≤ '9') ∨ c = '-'

/-- Whether a character list contains two consecutive hyphens. -/
def hasDoubleDash : List Char → Bool
  | c1 :: c2 :: rest => (c1 = '-' ∧ c2 = '-') ∨ hasDoubleDash (c2 :: rest)
  | _ => false

/-! The backend cleanup script. -/

/-- The six paths the cleanup script offers to remove. -/
def itemsToRemove : List String :=
  ["backend", "clients/ts-sdk", "clients/ts-sdk-tests",
   "Cargo.toml", "Cargo.lock", "docker-compose.yml"]

/-- A filesystem as the set of existing paths. -/
def FS := List String

/-- Whether path `q` is the path `p` itself or lies below it. -/
def underPath (p q : String) : Bool :=
  q = p ∨ q.startsWith (p ++ "/") = true

/-- The script's `removeRecursive(itemPath)`: when the path exists, it
and everything below it is removed and `true` is returned; otherwise the
filesystem is untouched and `false` is returned. -/
def removeRecursive (fs : FS) (p : String) : FS × Bool :=
  if (List.any fs (fun q => p = q)) then
    ((List.filter (fun q => ! underPath p q) fs), true)
  else (fs, false)

/-- JavaScript `toLowerCase` on the answer string (ASCII case fold, the
only case relevant to the `'yes'` comparison). -/
def jsToLower (s : String) : String :=
  ⟨s.data.map Char.toLower⟩

/-- `path.join(process.cwd(), item)`. -/
def joinPath (cwd item : String) : String :=
  cwd ++ "/" ++ item

/-- Outcome of a run of the cleanup script's `main`. -/
structure CleanupResult where
  fs : FS
  attempted : List String
  removedCount : Nat
  skippedCount : Nat

/-- The removal loop of `main`: each item is joined to the working
directory and passed to `removeRecursive`; a `true` return bumps
`removedCount`, a `false` return bumps `skippedCount`. -/
def cleanupLoop (cwd : String) (items : List String) (fs : FS) : CleanupResult :=
  match items with
  | [] => { fs := fs, attempted := [], removedCount := 0, skippedCount := 0 }
  | item :: rest =>
    let itemPath := joinPath cwd item
    let step := removeRecursive fs itemPath
    let r := cleanupLoop cwd rest step.1
    if step.2 then
      { r with attempted := itemPath :: r.attempted, removedCount := r.removedCount + 1 }
    else
      { r with attempted := itemPath :: r.attempted, skippedCount := r.skippedCount + 1 }

/-- The script's `main`, applied to the confirmation answer: the answer
is lowercased by `promptUser`; anything other than `'yes'` cancels with
no removal attempted, otherwise the six items are processed. -/
def cleanupMain (cwd : String) (answerRaw : String) (fs : FS) : CleanupResult :=
  let answer := jsToLower answerRaw
  if answer ≠ "yes" then
    { fs := fs, attempted := [], removedCount := 0, skippedCount := 0 }
  else
    cleanupLoop cwd itemsToRemove fs

/-! Concrete sample rows and databases used to exercise the theorems. -/

/-- A sample post of creator 1 in series 20, with one like and one
comment. -/
def samplePost : PostRow :=
  { id := 10, user_id := 1, series_id := some 20, is_published := true,
    deleted_at := none, created_at := 100, likes_count := 1, comments_count := 1 }

/-- A sample series of creator 1 holding one post. -/
def sampleSeries : SeriesRow :=
  { id := 20, user_id := 1, deleted_at := none, posts_count := 1 }

/-- A sample creator profile consistent with the sample tables. -/
def sampleProfile : CreatorProfileRow :=
  { user_id := 1, likes_count := 1, followers_count := 1, posts_count := 1,
    series_count := 1, total_earnings := 0, supporters_count := 0 }

/-- A small database in which every counter equals its row count. -/
def sampleDB : DB :=
  { users := [{ id := 1 }]
    posts := [samplePost]
    series := [sampleSeries]
    creator_profiles := [sampleProfile]
    post_likes := [{ post_id := 10, user_id := 2 }]
    post_comments := [{ post_id := 10, user_id := 2 }]
    follows := [{ follower_id := 2, following_id := 1 }]
    supporter_transactions := []
    subscriptions := [] }

/-- A fresh post by creator 1 in series 20, used as a trigger input. -/
def samplePostNew : PostRow :=
  { id := 11, user_id := 1, series_id := some 20, is_published := true,
    deleted_at := none, created_at := 101, likes_count := 0, comments_count := 0 }

/-- A fresh series by creator 1, used as a trigger input. -/
def sampleSeriesNew : SeriesRow :=
  { id := 21, user_id := 1, deleted_at := none, posts_count := 0 }

/-- A database exhibiting the join fan-out of `get_creator_stats`: one
completed transaction of amount 100 for creator 7, who has two
non-deleted posts and nothing else. -/
def fanoutDB : DB :=
  { users := [{ id := 7 }]
    posts := [
      { id := 1, user_id := 7, series_id := none, is_published := true,
        deleted_at := none, created_at := 10, likes_count := 0, comments_count := 0 },
      { id := 2, user_id := 7, series_id := none, is_published := true,
        deleted_at := none, created_at := 11, likes_count := 0, comments_count := 0 }]
    series := []
    creator_profiles := []
    post_likes := []
    post_comments := []
    follows := []
    supporter_transactions := [
      { supporter_id := 2, creator_id := 7, amount := 100, status := "completed" }]
    subscriptions := [] }

instance (db : DB) : Decidable (postsLikesSynced db) := by
  unfold postsLikesSynced; infer_instance

instance (db : DB) : Decidable (creatorLikesSynced db) := by
  unfold creatorLikesSynced; infer_instance

instance (db : DB) : Decidable (postsCommentsSynced db) := by
  unfold postsCommentsSynced; infer_instance

instance (db : DB) : Decidable (followersSynced db) := by
  unfold followersSynced; infer_instance

instance (db : DB) : Decidable (seriesPostsSynced db) := by
  unfold seriesPostsSynced; infer_instance

instance (db : DB) : Decidable (creatorPostsSynced db) := by
  unfold creatorPostsSynced; infer_instance

instance (db : DB) : Decidable (creatorSeriesSynced db) := by
  unfold creatorSeriesSynced; infer_instance

instance (db : DB) : Decidable (countersNonneg db) := by
  unfold countersNonneg; infer_instance

/-! Helper lemmas about row counts. -/

/-- Counting over a list with one designated occurrence removed. -/
theorem countP_middle {α : Type} (q : α → Bool) (la lb : List α) (a : α) :
    List.countP q (la ++ a :: lb)
      = List.countP q (la ++ lb) + (if q a then 1 else 0) := by
  simp only [List.countP_append, List.countP_cons]
  omega

/-- A predicate on post id and author is unchanged by a map that keeps
both fields. -/
theorem any_idUser_map (l : List PostRow) (f : PostRow → PostRow)
    (hid : ∀ p, (f p).id = p.id) (hus : ∀ p, (f p).user_id = p.user_id)
    (pid uid : Nat) :
    (l.map f).any (fun (p : PostRow) => decide (p.id = pid ∧ uid = p.user_id))
      = l.any (fun (p : PostRow) => decide (p.id = pid ∧ uid = p.user_id)) := by
  induction l with
  | nil => rfl
  | cons a t ih =>
    simp only [List.map_cons, List.any_cons, ih]
    congr 1
    simp [hid, hus]

/-! Preservation of each synchronization invariant by the trigger on its
own underlying table. -/

theorem like_ins_posts (db : DB) (nl : PostLikeRow) (h : postsLikesSynced db) :
    postsLikesSynced (insert_post_like db nl) := by
  intro p' hp'
  have hp2 : p' ∈ db.posts.map (fun (p : PostRow) =>
      if p.id = nl.post_id then { p with likes_count := p.likes_count + 1 } else p) := hp'
  obtain ⟨p, hp, rfl⟩ := List.mem_map.1 hp2
  have hdb := h p hp
  unfold postLikeRows at hdb ⊢
  have hlist : (insert_post_like db nl).post_likes = nl :: db.post_likes := rfl
  rw [hlist]
  by_cases hc : p.id = nl.post_id
  · simp only [if_pos hc, List.countP_cons]
    simp only [hc, decide_eq_true_eq, if_pos rfl] at hdb ⊢
    push_cast
    omega
  · simp only [if_neg hc, List.countP_cons, decide_eq_true_eq]
    rw [if_neg (fun e => hc e.symm)]
    simpa using hdb

theorem like_del_posts (db : DB) (dl : PostLikeRow) (la lb : List PostLikeRow)
    (hsplit : db.post_likes = la ++ dl :: lb) (h : postsLikesSynced db) :
    postsLikesSynced (delete_post_like db dl la lb) := by
  intro p' hp'
  have hp2 : p' ∈ db.posts.map (fun (p : PostRow) =>
      if p.id = dl.post_id then { p with likes_count := max (p.likes_count - 1) 0 } else p) := hp'
  obtain ⟨p, hp, rfl⟩ := List.mem_map.1 hp2
  have hdb := h p hp
  unfold postLikeRows at hdb ⊢
  have hlist : (delete_post_like db dl la lb).post_likes = la ++ lb := rfl
  rw [hlist]
  rw [hsplit, countP_middle] at hdb
  by_cases hc : p.id = dl.post_id
  · simp only [if_pos hc]
    simp only [hc, decide_eq_true_eq, if_pos rfl] at hdb ⊢
    push_cast at hdb ⊢
    omega
  · simp only [if_neg hc, decide_eq_true_eq] at hdb ⊢
    rw [if_neg (fun e => hc e.symm)] at hdb
    simpa using hdb

theorem like_ins_creator (db : DB) (nl : PostLikeRow) (h : creatorLikesSynced db) :
    creatorLikesSynced (insert_post_like db nl) := by
  intro cp' hcp'
  have hmapid : ∀ (p : PostRow),
      ((fun (p : PostRow) => if p.id = nl.post_id
        then { p with likes_count := p.likes_count + 1 } else p) p).id = p.id := by
    intro p; by_cases hc : p.id = nl.post_id <;> simp [hc]
  have hmapus : ∀ (p : PostRow),
      ((fun (p : PostRow) => if p.id = nl.post_id
        then { p with likes_count := p.likes_count + 1 } else p) p).user_id = p.user_id := by
    intro p; by_cases hc : p.id = nl.post_id <;> simp [hc]
  have hcp2 : cp' ∈ db.creator_profiles.map (fun (cp : CreatorProfileRow) =>
      if (db.posts.map (fun (p : PostRow) => if p.id = nl.post_id
          then { p with likes_count := p.likes_count + 1 } else p)).any
          (fun (p : PostRow) => decide (p.id = nl.post_id ∧ cp.user_id = p.user_id))
      then { cp with likes_count := cp.likes_count + 1 } else cp) := hcp'
  obtain ⟨cp, hcp, rfl⟩ := List.mem_map.1 hcp2
  have hdb := h cp hcp
  unfold creatorLikeRows at hdb
  have hlist : (insert_post_like db nl).post_likes = nl :: db.post_likes := rfl
  have hposts : (insert_post_like db nl).posts = db.posts.map
      (fun (p : PostRow) => if p.id = nl.post_id
        then { p with likes_count := p.likes_count + 1 } else p) := rfl
  have hpred : (fun (pl : PostLikeRow) =>
      (db.posts.map (fun (p : PostRow) => if p.id = nl.post_id
        then { p with likes_count := p.likes_count + 1 } else p)).any
        (fun (p : PostRow) => decide (p.id = pl.post_id ∧ cp.user_id = p.user_id)))
      = (fun (pl : PostLikeRow) => db.posts.any
        (fun (p : PostRow) => decide (p.id = pl.post_id ∧ cp.user_id = p.user_id))) :=
    funext (fun pl => any_idUser_map _ _ hmapid hmapus pl.post_id cp.user_id)
  have hcond := any_idUser_map
    (f := fun (p : PostRow) => if p.id = nl.post_id
      then { p with likes_count := p.likes_count + 1 } else p)
    db.posts hmapid hmapus nl.post_id cp.user_id
  by_cases hc : (db.posts.map (fun (p : PostRow) => if p.id = nl.post_id
      then { p with likes_count := p.likes_count + 1 } else p)).any
      (fun (p : PostRow) => decide (p.id = nl.post_id ∧ cp.user_id = p.user_id)) = true
  · rw [if_pos hc]
    show cp.likes_count + 1
      = ((creatorLikeRows (insert_post_like db nl) cp.user_id : Nat) : Int)
    unfold creatorLikeRows
    rw [hlist, hposts]
    simp only [List.countP_cons]
    rw [hpred, hcond]
    have hcs : db.posts.any
        (fun (p : PostRow) => decide (p.id = nl.post_id ∧ cp.user_id = p.user_id)) = true :=
      hcond ▸ hc
    rw [hcs]
    simp only [if_true, eq_self_iff_true]
    omega
  · rw [if_neg hc]
    show cp.likes_count
      = ((creatorLikeRows (insert_post_like db nl) cp.user_id : Nat) : Int)
    unfold creatorLikeRows
    rw [hlist, hposts]
    simp only [List.countP_cons]
    rw [hpred, hcond]
    rw [Bool.not_eq_true] at hc
    have hcs : db.posts.any
        (fun (p : PostRow) => decide (p.id = nl.post_id ∧ cp.user_id = p.user_id)) = false :=
      hcond ▸ hc
    rw [hcs]
    simpa using hdb

theorem like_del_creator (db : DB) (dl : PostLikeRow) (la lb : List PostLikeRow)
    (hsplit : db.post_likes = la ++ dl :: lb) (h : creatorLikesSynced db) :
    creatorLikesSynced (delete_post_like db dl la lb) := by
  intro cp' hcp'
  have hmapid : ∀ (p : PostRow),
      ((fun (p : PostRow) => if p.id = dl.post_id
        then { p with likes_count := max (p.likes_count - 1) 0 } else p) p).id = p.id := by
    intro p; by_cases hc : p.id = dl.post_id <;> simp [hc]
  have hmapus : ∀ (p : PostRow),
      ((fun (p : PostRow) => if p.id = dl.post_id
        then { p with likes_count := max (p.likes_count - 1) 0 } else p) p).user_id = p.user_id := by
    intro p; by_cases hc : p.id = dl.post_id <;> simp [hc]
  have hcp2 : cp' ∈ db.creator_profiles.map (fun (cp : CreatorProfileRow) =>
      if (db.posts.map (fun (p : PostRow) => if p.id = dl.post_id
          then { p with likes_count := max (p.likes_count - 1) 0 } else p)).any
          (fun (p : PostRow) => decide (p.id = dl.post_id ∧ cp.user_id = p.user_id))
      then { cp with likes_count := max (cp.likes_count - 1) 0 } else cp) := hcp'
  obtain ⟨cp, hcp, rfl⟩ := List.mem_map.1 hcp2
  have hdb := h cp hcp
  unfold creatorLikeRows at hdb
  rw [hsplit] at hdb
  simp only [countP_middle] at hdb
  have hlist : (delete_post_like db dl la lb).post_likes = la ++ lb := rfl
  have hposts : (delete_post_like db dl la lb).posts = db.posts.map
      (fun (p : PostRow) => if p.id = dl.post_id
        then { p with likes_count := max (p.likes_count - 1) 0 } else p) := rfl
  have hpred : (fun (pl : PostLikeRow) =>
      (db.posts.map (fun (p : PostRow) => if p.id = dl.post_id
        then { p with likes_count := max (p.likes_count - 1) 0 } else p)).any
        (fun (p : PostRow) => decide (p.id = pl.post_id ∧ cp.user_id = p.user_id)))
      = (fun (pl : PostLikeRow) => db.posts.any
        (fun (p : PostRow) => decide (p.id = pl.post_id ∧ cp.user_id = p.user_id))) :=
    funext (fun pl => any_idUser_map _ _ hmapid hmapus pl.post_id cp.user_id)
  have hcond := any_idUser_map
    (f := fun (p : PostRow) => if p.id = dl.post_id
      then { p with likes_count := max (p.likes_count - 1) 0 } else p)
    db.posts hmapid hmapus dl.post_id cp.user_id
  by_cases hc : (db.posts.map (fun (p : PostRow) => if p.id = dl.post_id
      then { p with likes_count := max (p.likes_count - 1) 0 } else p)).any
      (fun (p : PostRow) => decide (p.id = dl.post_id ∧ cp.user_id = p.user_id)) = true
  · rw [if_pos hc]
    show max (cp.likes_count - 1) 0
      = ((creatorLikeRows (delete_post_like db dl la lb) cp.user_id : Nat) : Int)
    unfold creatorLikeRows
    rw [hlist, hposts, hpred]
    have hcs : db.posts.any
        (fun (p : PostRow) => decide (p.id = dl.post_id ∧ cp.user_id = p.user_id)) = true :=
      hcond ▸ hc
    rw [hcs] at hdb
    simp only [if_true, eq_self_iff_true] at hdb
    omega
  · rw [if_neg hc]
    show cp.likes_count
      = ((creatorLikeRows (delete_post_like db dl la lb) cp.user_id : Nat) : Int)
    unfold creatorLikeRows
    rw [hlist, hposts, hpred]
    rw [Bool.not_eq_true] at hc
    have hcs : db.posts.any
        (fun (p : PostRow) => decide (p.id = dl.post_id ∧ cp.user_id = p.user_id)) = false :=
      hcond ▸ hc
    rw [hcs] at hdb
    simp only [Bool.false_eq_true, if_false, Nat.add_zero] at hdb
    exact hdb

theorem comment_ins_posts (db : DB) (nc : PostCommentRow) (h : postsCommentsSynced db) :
    postsCommentsSynced (insert_post_comment db nc) := by
  intro p' hp'
  have hp2 : p' ∈ db.posts.map (fun (p : PostRow) =>
      if p.id = nc.post_id then { p with comments_count := p.comments_count + 1 } else p) := hp'
  obtain ⟨p, hp, rfl⟩ := List.mem_map.1 hp2
  have hdb := h p hp
  unfold postCommentRows at hdb ⊢
  have hlist : (insert_post_comment db nc).post_comments = nc :: db.post_comments := rfl
  rw [hlist]
  by_cases hc : p.id = nc.post_id
  · simp only [if_pos hc, List.countP_cons]
    simp only [hc, decide_eq_true_eq, if_pos rfl] at hdb ⊢
    push_cast
    omega
  · simp only [if_neg hc, List.countP_cons, decide_eq_true_eq]
    rw [if_neg (fun e => hc e.symm)]
    simpa using hdb

theorem comment_del_posts (db : DB) (dc : PostCommentRow) (ca cb : List PostCommentRow)
    (hsplit : db.post_comments = ca ++ dc :: cb) (h : postsCommentsSynced db) :
    postsCommentsSynced (delete_post_comment db dc ca cb) := by
  intro p' hp'
  have hp2 : p' ∈ db.posts.map (fun (p : PostRow) =>
      if p.id = dc.post_id then { p with comments_count := max (p.comments_count - 1) 0 } else p) :=
    hp'
  obtain ⟨p, hp, rfl⟩ := List.mem_map.1 hp2
  have hdb := h p hp
  unfold postCommentRows at hdb ⊢
  have hlist : (delete_post_comment db dc ca cb).post_comments = ca ++ cb := rfl
  rw [hlist]
  rw [hsplit, countP_middle] at hdb
  by_cases hc : p.id = dc.post_id
  · simp only [if_pos hc]
    simp only [hc, decide_eq_true_eq, if_pos rfl] at hdb ⊢
    push_cast at hdb ⊢
    omega
  · simp only [if_neg hc, decide_eq_true_eq] at hdb ⊢
    rw [if_neg (fun e => hc e.symm)] at hdb
    simpa using hdb

theorem follow_ins_creator (db : DB) (nf : FollowRow) (h : followersSynced db) :
    followersSynced (insert_follow db nf) := by
  intro cp' hcp'
  have hcp2 : cp' ∈ db.creator_profiles.map (fun (cp : CreatorProfileRow) =>
      if cp.user_id = nf.following_id
      then { cp with followers_count := cp.followers_count + 1 } else cp) := hcp'
  obtain ⟨cp, hcp, rfl⟩ := List.mem_map.1 hcp2
  have hdb := h cp hcp
  unfold followerRows at hdb ⊢
  have hlist : (insert_follow db nf).follows = nf :: db.follows := rfl
  rw [hlist]
  by_cases hc : cp.user_id = nf.following_id
  · simp only [if_pos hc, List.countP_cons]
    simp only [hc, decide_eq_true_eq, if_pos rfl] at hdb ⊢
    push_cast
    omega
  · simp only [if_neg hc, List.countP_cons, decide_eq_true_eq]
    rw [if_neg (fun e => hc e.symm)]
    simpa using hdb

theorem follow_del_creator (db : DB) (df : FollowRow) (fa fb : List FollowRow)
    (hsplit : db.follows = fa ++ df :: fb) (h : followersSynced db) :
    followersSynced (delete_follow db df fa fb) := by
  intro cp' hcp'
  have hcp2 : cp' ∈ db.creator_profiles.map (fun (cp : CreatorProfileRow) =>
      if cp.user_id = df.following_id
      then { cp with followers_count := max (cp.followers_count - 1) 0 } else cp) := hcp'
  obtain ⟨cp, hcp, rfl⟩ := List.mem_map.1 hcp2
  have hdb := h cp hcp
  unfold followerRows at hdb ⊢
  have hlist : (delete_follow db df fa fb).follows = fa ++ fb := rfl
  rw [hlist]
  rw [hsplit, countP_middle] at hdb
  by_cases hc : cp.user_id = df.following_id
  · simp only [if_pos hc]
    simp only [hc, decide_eq_true_eq, if_pos rfl] at hdb ⊢
    push_cast at hdb ⊢
    omega
  · simp only [if_neg hc, decide_eq_true_eq] at hdb ⊢
    rw [if_neg (fun e => hc e.symm)] at hdb
    simpa using hdb

theorem post_ins_series (db : DB) (np : PostRow) (h : seriesPostsSynced db) :
    seriesPostsSynced (insert_post db np) := by
  intro s' hs'
  have hs2 : s' ∈ db.series.map (fun (s : SeriesRow) =>
      if np.series_id = some s.id then { s with posts_count := s.posts_count + 1 } else s) := hs'
  obtain ⟨s, hs, rfl⟩ := List.mem_map.1 hs2
  have hdb := h s hs
  unfold seriesPostRows at hdb ⊢
  have hlist : (insert_post db np).posts = np :: db.posts := rfl
  rw [hlist]
  by_cases hc : np.series_id = some s.id
  · simp only [if_pos hc, List.countP_cons]
    simp only [hc, decide_eq_true_eq, if_pos rfl] at hdb ⊢
    push_cast
    omega
  · simp only [if_neg hc, List.countP_cons, decide_eq_true_eq]
    simpa using hdb

theorem post_ins_creator (db : DB) (np : PostRow) (h : creatorPostsSynced db) :
    creatorPostsSynced (insert_post db np) := by
  intro cp' hcp'
  have hcp2 : cp' ∈ db.creator_profiles.map (fun (cp : CreatorProfileRow) =>
      if cp.user_id = np.user_id then { cp with posts_count := cp.posts_count + 1 } else cp) := hcp'
  obtain ⟨cp, hcp, rfl⟩ := List.mem_map.1 hcp2
  have hdb := h cp hcp
  unfold creatorPostRows at hdb ⊢
  have hlist : (insert_post db np).posts = np :: db.posts := rfl
  rw [hlist]
  by_cases hc : cp.user_id = np.user_id
  · simp only [if_pos hc, List.countP_cons]
    simp only [hc, decide_eq_true_eq, if_pos rfl] at hdb ⊢
    push_cast
    omega
  · simp only [if_neg hc, List.countP_cons, decide_eq_true_eq]
    rw [if_neg (fun e => hc e.symm)]
    simpa using hdb

theorem post_del_series (db : DB) (dp : PostRow) (pa pb : List PostRow)
    (hsplit : db.posts = pa ++ dp :: pb) (h : seriesPostsSynced db) :
    seriesPostsSynced (delete_post db dp pa pb) := by
  intro s' hs'
  have hs2 : s' ∈ db.series.map (fun (s : SeriesRow) =>
      if dp.series_id = some s.id then { s with posts_count := max (s.posts_count - 1) 0 } else s) :=
    hs'
  obtain ⟨s, hs, rfl⟩ := List.mem_map.1 hs2
  have hdb := h s hs
  unfold seriesPostRows at hdb ⊢
  have hlist : (delete_post db dp pa pb).posts = pa ++ pb := rfl
  rw [hlist]
  rw [hsplit, countP_middle] at hdb
  by_cases hc : dp.series_id = some s.id
  · simp only [if_pos hc]
    simp only [hc, decide_eq_true_eq, if_pos rfl] at hdb ⊢
    push_cast at hdb ⊢
    omega
  · simp only [if_neg hc, decide_eq_true_eq] at hdb ⊢
    simpa using hdb

theorem post_del_creator (db : DB) (dp : PostRow) (pa pb : List PostRow)
    (hsplit : db.posts = pa ++ dp :: pb) (h : creatorPostsSynced db) :
    creatorPostsSynced (delete_post db dp pa pb) := by
  intro cp' hcp'
  have hcp2 : cp' ∈ db.creator_profiles.map (fun (cp : CreatorProfileRow) =>
      if cp.user_id = dp.user_id
      then { cp with posts_count := max (cp.posts_count - 1) 0 } else cp) := hcp'
  obtain ⟨cp, hcp, rfl⟩ := List.mem_map.1 hcp2
  have hdb := h cp hcp
  unfold creatorPostRows at hdb ⊢
  have hlist : (delete_post db dp pa pb).posts = pa ++ pb := rfl
  rw [hlist]
  rw [hsplit, countP_middle] at hdb
  by_cases hc : cp.user_id = dp.user_id
  · simp only [if_pos hc]
    simp only [hc, decide_eq_true_eq, if_pos rfl] at hdb ⊢
    push_cast at hdb ⊢
    omega
  · simp only [if_neg hc, decide_eq_true_eq] at hdb ⊢
    rw [if_neg (fun e => hc e.symm)] at hdb
    simpa using hdb

theorem series_ins_creator (db : DB) (ns : SeriesRow) (h : creatorSeriesSynced db) :
    creatorSeriesSynced (insert_series db ns) := by
  intro cp' hcp'
  have hcp2 : cp' ∈ db.creator_profiles.map (fun (cp : CreatorProfileRow) =>
      if cp.user_id = ns.user_id then { cp with series_count := cp.series_count + 1 } else cp) :=
    hcp'
  obtain ⟨cp, hcp, rfl⟩ := List.mem_map.1 hcp2
  have hdb := h cp hcp
  unfold creatorSeriesRows at hdb ⊢
  have hlist : (insert_series db ns).series = ns :: db.series := rfl
  rw [hlist]
  by_cases hc : cp.user_id = ns.user_id
  · simp only [if_pos hc, List.countP_cons]
    simp only [hc, decide_eq_true_eq, if_pos rfl] at hdb ⊢
    push_cast
    omega
  · simp only [if_neg hc, List.countP_cons, decide_eq_true_eq]
    rw [if_neg (fun e => hc e.symm)]
    simpa using hdb

theorem series_del_creator (db : DB) (ds : SeriesRow) (sa sb : List SeriesRow)
    (hsplit : db.series = sa ++ ds :: sb) (h : creatorSeriesSynced db) :
    creatorSeriesSynced (delete_series db ds sa sb) := by
  intro cp' hcp'
  have hcp2 : cp' ∈ db.creator_profiles.map (fun (cp : CreatorProfileRow) =>
      if cp.user_id = ds.user_id
      then { cp with series_count := max (cp.series_count - 1) 0 } else cp) := hcp'
  obtain ⟨cp, hcp, rfl⟩ := List.mem_map.1 hcp2
  have hdb := h cp hcp
  unfold creatorSeriesRows at hdb ⊢
  have hlist : (delete_series db ds sa sb).series = sa ++ sb := rfl
  rw [hlist]
  rw [hsplit, countP_middle] at hdb
  by_cases hc : cp.user_id = ds.user_id
  · simp only [if_pos hc]
    simp only [hc, decide_eq_true_eq, if_pos rfl] at hdb ⊢
    push_cast at hdb ⊢
    omega
  · simp only [if_neg hc, decide_eq_true_eq] at hdb ⊢
    rw [if_neg (fun e => hc e.symm)] at hdb
    simpa using hdb

/-- C1: for every trigger-maintained counter (`posts.likes_count`,
`creator_profiles.likes_count`, `posts.comments_count`,
`creator_profiles.followers_count`, `series.posts_count`,
`creator_profiles.posts_count`, `creator_profiles.series_count`), if
before an insert into or delete from the underlying join/child table the
counter equals the number of matching rows in that table, then after the
trigger fires it still equals that row count. -/
theorem C1_counters_stay_synced
    (db : DB) (nl : PostLikeRow) (nc : PostCommentRow) (nf : FollowRow)
    (np : PostRow) (ns : SeriesRow)
    (dl : PostLikeRow) (la lb : List PostLikeRow)
    (dc : PostCommentRow) (ca cb : List PostCommentRow)
    (df : FollowRow) (fa fb : List FollowRow)
    (dp : PostRow) (pa pb : List PostRow)
    (ds : SeriesRow) (sa sb : List SeriesRow) :
    (postsLikesSynced db → postsLikesSynced (insert_post_like db nl)) ∧
    (creatorLikesSynced db → creatorLikesSynced (insert_post_like db nl)) ∧
    (db.post_likes = la ++ dl :: lb →
      postsLikesSynced db → postsLikesSynced (delete_post_like db dl la lb)) ∧
    (db.post_likes = la ++ dl :: lb →
      creatorLikesSynced db → creatorLikesSynced (delete_post_like db dl la lb)) ∧
    (postsCommentsSynced db → postsCommentsSynced (insert_post_comment db nc)) ∧
    (db.post_comments = ca ++ dc :: cb →
      postsCommentsSynced db → postsCommentsSynced (delete_post_comment db dc ca cb)) ∧
    (followersSynced db → followersSynced (insert_follow db nf)) ∧
    (db.follows = fa ++ df :: fb →
      followersSynced db → followersSynced (delete_follow db df fa fb)) ∧
    (seriesPostsSynced db → seriesPostsSynced (insert_post db np)) ∧
    (creatorPostsSynced db → creatorPostsSynced (insert_post db np)) ∧
    (db.posts = pa ++ dp :: pb →
      seriesPostsSynced db → seriesPostsSynced (delete_post db dp pa pb)) ∧
    (db.posts = pa ++ dp :: pb →
      creatorPostsSynced db → creatorPostsSynced (delete_post db dp pa pb)) ∧
    (creatorSeriesSynced db → creatorSeriesSynced (insert_series db ns)) ∧
    (db.series = sa ++ ds :: sb →
      creatorSeriesSynced db → creatorSeriesSynced (delete_series db ds sa sb)) :=
  ⟨like_ins_posts db nl, like_ins_creator db nl,
   fun hs h => like_del_posts db dl la lb hs h,
   fun hs h => like_del_creator db dl la lb hs h,
   comment_ins_posts db nc,
   fun hs h => comment_del_posts db dc ca cb hs h,
   follow_ins_creator db nf,
   fun hs h => follow_del_creator db df fa fb hs h,
   post_ins_series db np, post_ins_creator db np,
   fun hs h => post_del_series db dp pa pb hs h,
   fun hs h => post_del_creator db dp pa pb hs h,
   series_ins_creator db ns,
   fun hs h => series_del_creator db ds sa sb hs h⟩

/-- C1 witness: the preservation statements applied to the concrete
sample database, with every hypothesis discharged by evaluation. -/
theorem C1_counters_stay_synced_witness :
    postsLikesSynced (insert_post_like sampleDB { post_id := 10, user_id := 3 }) ∧
    creatorLikesSynced (insert_post_like sampleDB { post_id := 10, user_id := 3 }) ∧
    postsLikesSynced (delete_post_like sampleDB { post_id := 10, user_id := 2 } [] []) ∧
    creatorLikesSynced (delete_post_like sampleDB { post_id := 10, user_id := 2 } [] []) ∧
    postsCommentsSynced (insert_post_comment sampleDB { post_id := 10, user_id := 3 }) ∧
    postsCommentsSynced (delete_post_comment sampleDB { post_id := 10, user_id := 2 } [] []) ∧
    followersSynced (insert_follow sampleDB { follower_id := 3, following_id := 1 }) ∧
    followersSynced (delete_follow sampleDB { follower_id := 2, following_id := 1 } [] []) ∧
    seriesPostsSynced (insert_post sampleDB samplePostNew) ∧
    creatorPostsSynced (insert_post sampleDB samplePostNew) ∧
    seriesPostsSynced (delete_post sampleDB samplePost [] []) ∧
    creatorPostsSynced (delete_post sampleDB samplePost [] []) ∧
    creatorSeriesSynced (insert_series sampleDB sampleSeriesNew) ∧
    creatorSeriesSynced (delete_series sampleDB sampleSeries [] []) := by
  have H := C1_counters_stay_synced sampleDB
    { post_id := 10, user_id := 3 } { post_id := 10, user_id := 3 }
    { follower_id := 3, following_id := 1 } samplePostNew sampleSeriesNew
    { post_id := 10, user_id := 2 } [] [] { post_id := 10, user_id := 2 } [] []
    { follower_id := 2, following_id := 1 } [] [] samplePost [] [] sampleSeries [] []
  exact ⟨H.1 (by decide), H.2.1 (by decide),
    H.2.2.1 (by decide) (by decide), H.2.2.2.1 (by decide) (by decide),
    H.2.2.2.2.1 (by decide), H.2.2.2.2.2.1 (by decide) (by decide),
    H.2.2.2.2.2.2.1 (by decide), H.2.2.2.2.2.2.2.1 (by decide) (by decide),
    H.2.2.2.2.2.2.2.2.1 (by decide), H.2.2.2.2.2.2.2.2.2.1 (by decide),
    H.2.2.2.2.2.2.2.2.2.2.1 (by decide) (by decide),
    H.2.2.2.2.2.2.2.2.2.2.2.1 (by decide) (by decide),
    H.2.2.2.2.2.2.2.2.2.2.2.2.1 (by decide),
    H.2.2.2.2.2.2.2.2.2.2.2.2.2 (by decide) (by decide)⟩

/-! Helper lemmas for the per-row trigger effect and for nonnegativity. -/

/-- Indexing into a conditionally updated table. -/
theorem get_map_ite {β : Type} (l : List β) (c : β → Prop) [DecidablePred c] (u : β → β)
    (i : Nat) (h1 : i < l.length)
    (h2 : i < (l.map (fun b => if c b then u b else b)).length) :
    (l.map (fun b => if c b then u b else b)).get ⟨i, h2⟩
      = if c (l.get ⟨i, h1⟩) then u (l.get ⟨i, h1⟩) else l.get ⟨i, h1⟩ := by
  simp [List.get_eq_getElem, List.getElem_map]

/-- Mapping a counter update over `posts` preserves nonnegativity when
the update does. -/
theorem nonneg_posts_map (l : List PostRow) (f : PostRow → PostRow)
    (hf : ∀ p : PostRow, 0 ≤ p.likes_count ∧ 0 ≤ p.comments_count →
      0 ≤ (f p).likes_count ∧ 0 ≤ (f p).comments_count)
    (h : ∀ p ∈ l, 0 ≤ p.likes_count ∧ 0 ≤ p.comments_count) :
    ∀ p ∈ l.map f, 0 ≤ p.likes_count ∧ 0 ≤ p.comments_count := by
  intro p' hp'
  obtain ⟨p, hp, rfl⟩ := List.mem_map.1 hp'
  exact hf p (h p hp)

/-- Mapping a counter update over `series` preserves nonnegativity when
the update does. -/
theorem nonneg_series_map (l : List SeriesRow) (f : SeriesRow → SeriesRow)
    (hf : ∀ s : SeriesRow, 0 ≤ s.posts_count → 0 ≤ (f s).posts_count)
    (h : ∀ s ∈ l, 0 ≤ s.posts_count) :
    ∀ s ∈ l.map f, 0 ≤ s.posts_count := by
  intro s' hs'
  obtain ⟨s, hs, rfl⟩ := List.mem_map.1 hs'
  exact hf s (h s hs)

/-- Mapping a counter update over `creator_profiles` preserves
nonnegativity when the update does. -/
theorem nonneg_cps_map (l : List CreatorProfileRow) (f : CreatorProfileRow → CreatorProfileRow)
    (hf : ∀ cp : CreatorProfileRow,
      0 ≤ cp.likes_count ∧ 0 ≤ cp.followers_count ∧ 0 ≤ cp.posts_count ∧ 0 ≤ cp.series_count →
      0 ≤ (f cp).likes_count ∧ 0 ≤ (f cp).followers_count ∧
        0 ≤ (f cp).posts_count ∧ 0 ≤ (f cp).series_count)
    (h : ∀ cp ∈ l,
      0 ≤ cp.likes_count ∧ 0 ≤ cp.followers_count ∧ 0 ≤ cp.posts_count ∧ 0 ≤ cp.series_count) :
    ∀ cp ∈ l.map f,
      0 ≤ cp.likes_count ∧ 0 ≤ cp.followers_count ∧ 0 ≤ cp.posts_count ∧ 0 ≤ cp.series_count := by
  intro cp' hcp'
  obtain ⟨cp, hcp, rfl⟩ := List.mem_map.1 hcp'
  exact hf cp (h cp hcp)

theorem nonneg_like_ins (db : DB) (nl : PostLikeRow) (h : countersNonneg db) :
    countersNonneg (update_post_likes_count_ins db nl) := by
  obtain ⟨hp, hs, hcp⟩ := h
  refine ⟨nonneg_posts_map db.posts _ ?_ hp, hs, nonneg_cps_map db.creator_profiles _ ?_ hcp⟩
  · intro p hpc
    by_cases hc : p.id = nl.post_id
    · simp only [if_pos hc]
      exact ⟨by omega, by omega⟩
    · simp only [if_neg hc]; exact hpc
  · intro cp hcc
    by_cases hc : (db.posts.map (fun (p : PostRow) => if p.id = nl.post_id
        then { p with likes_count := p.likes_count + 1 } else p)).any
        (fun (p : PostRow) => decide (p.id = nl.post_id ∧ cp.user_id = p.user_id)) = true
    · simp only [if_pos hc]
      refine ⟨by omega, by omega, by omega, by omega⟩
    · simp only [if_neg hc]; exact hcc

theorem nonneg_like_del (db : DB) (dl : PostLikeRow) (h : countersNonneg db) :
    countersNonneg (update_post_likes_count_del db dl) := by
  obtain ⟨hp, hs, hcp⟩ := h
  refine ⟨nonneg_posts_map db.posts _ ?_ hp, hs, nonneg_cps_map db.creator_profiles _ ?_ hcp⟩
  · intro p hpc
    by_cases hc : p.id = dl.post_id
    · simp only [if_pos hc]
      exact ⟨by omega, by omega⟩
    · simp only [if_neg hc]; exact hpc
  · intro cp hcc
    by_cases hc : (db.posts.map (fun (p : PostRow) => if p.id = dl.post_id
        then { p with likes_count := max (p.likes_count - 1) 0 } else p)).any
        (fun (p : PostRow) => decide (p.id = dl.post_id ∧ cp.user_id = p.user_id)) = true
    · simp only [if_pos hc]
      refine ⟨by omega, by omega, by omega, by omega⟩
    · simp only [if_neg hc]; exact hcc

theorem nonneg_comment_ins (db : DB) (nc : PostCommentRow) (h : countersNonneg db) :
    countersNonneg (update_post_comments_count_ins db nc) := by
  obtain ⟨hp, hs, hcp⟩ := h
  refine ⟨nonneg_posts_map db.posts _ ?_ hp, hs, hcp⟩
  intro p hpc
  by_cases hc : p.id = nc.post_id
  · simp only [if_pos hc]
    exact ⟨by omega, by omega⟩
  · simp only [if_neg hc]; exact hpc

theorem nonneg_comment_del (db : DB) (dc : PostCommentRow) (h : countersNonneg db) :
    countersNonneg (update_post_comments_count_del db dc) := by
  obtain ⟨hp, hs, hcp⟩ := h
  refine ⟨nonneg_posts_map db.posts _ ?_ hp, hs, hcp⟩
  intro p hpc
  by_cases hc : p.id = dc.post_id
  · simp only [if_pos hc]
    exact ⟨by omega, by omega⟩
  · simp only [if_neg hc]; exact hpc

theorem nonneg_follow_ins (db : DB) (nf : FollowRow) (h : countersNonneg db) :
    countersNonneg (update_followers_count_ins db nf) := by
  obtain ⟨hp, hs, hcp⟩ := h
  refine ⟨hp, hs, nonneg_cps_map db.creator_profiles _ ?_ hcp⟩
  intro cp hcc
  by_cases hc : cp.user_id = nf.following_id
  · simp only [if_pos hc]
    refine ⟨by omega, by omega, by omega, by omega⟩
  · simp only [if_neg hc]; exact hcc

theorem nonneg_follow_del (db : DB) (df : FollowRow) (h : countersNonneg db) :
    countersNonneg (update_followers_count_del db df) := by
  obtain ⟨hp, hs, hcp⟩ := h
  refine ⟨hp, hs, nonneg_cps_map db.creator_profiles _ ?_ hcp⟩
  intro cp hcc
  by_cases hc : cp.user_id = df.following_id
  · simp only [if_pos hc]
    refine ⟨by omega, by omega, by omega, by omega⟩
  · simp only [if_neg hc]; exact hcc

theorem nonneg_spost_ins (db : DB) (np : PostRow) (h : countersNonneg db) :
    countersNonneg (update_series_posts_count_ins db np) := by
  obtain ⟨hp, hs, hcp⟩ := h
  refine ⟨hp, nonneg_series_map db.series _ ?_ hs, nonneg_cps_map db.creator_profiles _ ?_ hcp⟩
  · intro s hsc
    by_cases hc : np.series_id = some s.id
    · simp only [if_pos hc]
      omega
    · simp only [if_neg hc]; exact hsc
  · intro cp hcc
    by_cases hc : cp.user_id = np.user_id
    · simp only [if_pos hc]
      refine ⟨by omega, by omega, by omega, by omega⟩
    · simp only [if_neg hc]; exact hcc

theorem nonneg_spost_del (db : DB) (dp : PostRow) (h : countersNonneg db) :
    countersNonneg (update_series_posts_count_del db dp) := by
  obtain ⟨hp, hs, hcp⟩ := h
  refine ⟨hp, nonneg_series_map db.series _ ?_ hs, nonneg_cps_map db.creator_profiles _ ?_ hcp⟩
  · intro s hsc
    by_cases hc : dp.series_id = some s.id
    · simp only [if_pos hc]
      omega
    · simp only [if_neg hc]; exact hsc
  · intro cp hcc
    by_cases hc : cp.user_id = dp.user_id
    · simp only [if_pos hc]
      refine ⟨by omega, by omega, by omega, by omega⟩
    · simp only [if_neg hc]; exact hcc

theorem nonneg_cseries_ins (db : DB) (ns : SeriesRow) (h : countersNonneg db) :
    countersNonneg (update_creator_series_count_ins db ns) := by
  obtain ⟨hp, hs, hcp⟩ := h
  refine ⟨hp, hs, nonneg_cps_map db.creator_profiles _ ?_ hcp⟩
  intro cp hcc
  by_cases hc : cp.user_id = ns.user_id
  · simp only [if_pos hc]
    refine ⟨by omega, by omega, by omega, by omega⟩
  · simp only [if_neg hc]; exact hcc

theorem nonneg_cseries_del (db : DB) (ds : SeriesRow) (h : countersNonneg db) :
    countersNonneg (update_creator_series_count_del db ds) := by
  obtain ⟨hp, hs, hcp⟩ := h
  refine ⟨hp, hs, nonneg_cps_map db.creator_profiles _ ?_ hcp⟩
  intro cp hcc
  by_cases hc : cp.user_id = ds.user_id
  · simp only [if_pos hc]
    refine ⟨by omega, by omega, by omega, by omega⟩
  · simp only [if_neg hc]; exact hcc

/-- C4: every counter-maintenance trigger performs a single-row
increment by one on insert and a decrement floor-clamped at zero on
delete — each targeted row's counter goes from `n` to `n + 1` on the
insert branch and to `max (n - 1) 0` on the delete branch, every other
row is unchanged — and no trigger branch ever makes a nonnegative
counter negative. -/
theorem C4_trigger_unit_steps
    (db : DB) (nl dl : PostLikeRow) (nc dc : PostCommentRow) (nf df : FollowRow)
    (np dp : PostRow) (ns ds : SeriesRow) :
    (∀ (i : Nat) (h1 : i < db.posts.length)
        (h2 : i < (update_post_likes_count_ins db nl).posts.length),
      ((update_post_likes_count_ins db nl).posts[i]).likes_count
        = if (db.posts[i]).id = nl.post_id
          then (db.posts[i]).likes_count + 1 else (db.posts[i]).likes_count) ∧
    (∀ (i : Nat) (h1 : i < db.posts.length)
        (h2 : i < (update_post_likes_count_del db dl).posts.length),
      ((update_post_likes_count_del db dl).posts[i]).likes_count
        = if (db.posts[i]).id = dl.post_id
          then max ((db.posts[i]).likes_count - 1) 0 else (db.posts[i]).likes_count) ∧
    (∀ (i : Nat) (h1 : i < db.creator_profiles.length)
        (h2 : i < (update_post_likes_count_ins db nl).creator_profiles.length),
      ((update_post_likes_count_ins db nl).creator_profiles[i]).likes_count
        = if db.posts.any (fun (p : PostRow) =>
              decide (p.id = nl.post_id ∧ (db.creator_profiles[i]).user_id = p.user_id)) = true
          then (db.creator_profiles[i]).likes_count + 1
          else (db.creator_profiles[i]).likes_count) ∧
    (∀ (i : Nat) (h1 : i < db.creator_profiles.length)
        (h2 : i < (update_post_likes_count_del db dl).creator_profiles.length),
      ((update_post_likes_count_del db dl).creator_profiles[i]).likes_count
        = if db.posts.any (fun (p : PostRow) =>
              decide (p.id = dl.post_id ∧ (db.creator_profiles[i]).user_id = p.user_id)) = true
          then max ((db.creator_profiles[i]).likes_count - 1) 0
          else (db.creator_profiles[i]).likes_count) ∧
    (∀ (i : Nat) (h1 : i < db.posts.length)
        (h2 : i < (update_post_comments_count_ins db nc).posts.length),
      ((update_post_comments_count_ins db nc).posts[i]).comments_count
        = if (db.posts[i]).id = nc.post_id
          then (db.posts[i]).comments_count + 1 else (db.posts[i]).comments_count) ∧
    (∀ (i : Nat) (h1 : i < db.posts.length)
        (h2 : i < (update_post_comments_count_del db dc).posts.length),
      ((update_post_comments_count_del db dc).posts[i]).comments_count
        = if (db.posts[i]).id = dc.post_id
          then max ((db.posts[i]).comments_count - 1) 0 else (db.posts[i]).comments_count) ∧
    (∀ (i : Nat) (h1 : i < db.creator_profiles.length)
        (h2 : i < (update_followers_count_ins db nf).creator_profiles.length),
      ((update_followers_count_ins db nf).creator_profiles[i]).followers_count
        = if (db.creator_profiles[i]).user_id = nf.following_id
          then (db.creator_profiles[i]).followers_count + 1
          else (db.creator_profiles[i]).followers_count) ∧
    (∀ (i : Nat) (h1 : i < db.creator_profiles.length)
        (h2 : i < (update_followers_count_del db df).creator_profiles.length),
      ((update_followers_count_del db df).creator_profiles[i]).followers_count
        = if (db.creator_profiles[i]).user_id = df.following_id
          then max ((db.creator_profiles[i]).followers_count - 1) 0
          else (db.creator_profiles[i]).followers_count) ∧
    (∀ (i : Nat) (h1 : i < db.series.length)
        (h2 : i < (update_series_posts_count_ins db np).series.length),
      ((update_series_posts_count_ins db np).series[i]).posts_count
        = if np.series_id = some (db.series[i]).id
          then (db.series[i]).posts_count + 1 else (db.series[i]).posts_count) ∧
    (∀ (i : Nat) (h1 : i < db.series.length)
        (h2 : i < (update_series_posts_count_del db dp).series.length),
      ((update_series_posts_count_del db dp).series[i]).posts_count
        = if dp.series_id = some (db.series[i]).id
          then max ((db.series[i]).posts_count - 1) 0 else (db.series[i]).posts_count) ∧
    (∀ (i : Nat) (h1 : i < db.creator_profiles.length)
        (h2 : i < (update_series_posts_count_ins db np).creator_profiles.length),
      ((update_series_posts_count_ins db np).creator_profiles[i]).posts_count
        = if (db.creator_profiles[i]).user_id = np.user_id
          then (db.creator_profiles[i]).posts_count + 1
          else (db.creator_profiles[i]).posts_count) ∧
    (∀ (i : Nat) (h1 : i < db.creator_profiles.length)
        (h2 : i < (update_series_posts_count_del db dp).creator_profiles.length),
      ((update_series_posts_count_del db dp).creator_profiles[i]).posts_count
        = if (db.creator_profiles[i]).user_id = dp.user_id
          then max ((db.creator_profiles[i]).posts_count - 1) 0
          else (db.creator_profiles[i]).posts_count) ∧
    (∀ (i : Nat) (h1 : i < db.creator_profiles.length)
        (h2 : i < (update_creator_series_count_ins db ns).creator_profiles.length),
      ((update_creator_series_count_ins db ns).creator_profiles[i]).series_count
        = if (db.creator_profiles[i]).user_id = ns.user_id
          then (db.creator_profiles[i]).series_count + 1
          else (db.creator_profiles[i]).series_count) ∧
    (∀ (i : Nat) (h1 : i < db.creator_profiles.length)
        (h2 : i < (update_creator_series_count_del db ds).creator_profiles.length),
      ((update_creator_series_count_del db ds).creator_profiles[i]).series_count
        = if (db.creator_profiles[i]).user_id = ds.user_id
          then max ((db.creator_profiles[i]).series_count - 1) 0
          else (db.creator_profiles[i]).series_count) ∧
    (countersNonneg db → countersNonneg (update_post_likes_count_ins db nl)) ∧
    (countersNonneg db → countersNonneg (update_post_likes_count_del db dl)) ∧
    (countersNonneg db → countersNonneg (update_post_comments_count_ins db nc)) ∧
    (countersNonneg db → countersNonneg (update_post_comments_count_del db dc)) ∧
    (countersNonneg db → countersNonneg (update_followers_count_ins db nf)) ∧
    (countersNonneg db → countersNonneg (update_followers_count_del db df)) ∧
    (countersNonneg db → countersNonneg (update_series_posts_count_ins db np)) ∧
    (countersNonneg db → countersNonneg (update_series_posts_count_del db dp)) ∧
    (countersNonneg db → countersNonneg (update_creator_series_count_ins db ns)) ∧
    (countersNonneg db → countersNonneg (update_creator_series_count_del db ds)) := by
  have hmapidI : ∀ (p : PostRow),
      ((fun (p : PostRow) => if p.id = nl.post_id
        then { p with likes_count := p.likes_count + 1 } else p) p).id = p.id := by
    intro p; by_cases hc : p.id = nl.post_id <;> simp [hc]
  have hmapusI : ∀ (p : PostRow),
      ((fun (p : PostRow) => if p.id = nl.post_id
        then { p with likes_count := p.likes_count + 1 } else p) p).user_id = p.user_id := by
    intro p; by_cases hc : p.id = nl.post_id <;> simp [hc]
  have hmapidD : ∀ (p : PostRow),
      ((fun (p : PostRow) => if p.id = dl.post_id
        then { p with likes_count := max (p.likes_count - 1) 0 } else p) p).id = p.id := by
    intro p; by_cases hc : p.id = dl.post_id <;> simp [hc]
  have hmapusD : ∀ (p : PostRow),
      ((fun (p : PostRow) => if p.id = dl.post_id
        then { p with likes_count := max (p.likes_count - 1) 0 } else p) p).user_id = p.user_id := by
    intro p; by_cases hc : p.id = dl.post_id <;> simp [hc]
  refine ⟨?_, ?_, ?_, ?_, ?_, ?_, ?_, ?_, ?_, ?_, ?_, ?_, ?_, ?_,
    nonneg_like_ins db nl, nonneg_like_del db dl, nonneg_comment_ins db nc,
    nonneg_comment_del db dc, nonneg_follow_ins db nf, nonneg_follow_del db df,
    nonneg_spost_ins db np, nonneg_spost_del db dp, nonneg_cseries_ins db ns,
    nonneg_cseries_del db ds⟩
  · intro i h1 h2
    simp only [update_post_likes_count_ins, List.getElem_map]
    split <;> rfl
  · intro i h1 h2
    simp only [update_post_likes_count_del, List.getElem_map]
    split <;> rfl
  · intro i h1 h2
    simp only [update_post_likes_count_ins, List.getElem_map]
    rw [any_idUser_map _ _ hmapidI hmapusI nl.post_id]
    split <;> rfl
  · intro i h1 h2
    simp only [update_post_likes_count_del, List.getElem_map]
    rw [any_idUser_map _ _ hmapidD hmapusD dl.post_id]
    split <;> rfl
  · intro i h1 h2
    simp only [update_post_comments_count_ins, List.getElem_map]
    split <;> rfl
  · intro i h1 h2
    simp only [update_post_comments_count_del, List.getElem_map]
    split <;> rfl
  · intro i h1 h2
    simp only [update_followers_count_ins, List.getElem_map]
    split <;> rfl
  · intro i h1 h2
    simp only [update_followers_count_del, List.getElem_map]
    split <;> rfl
  · intro i h1 h2
    simp only [update_series_posts_count_ins, List.getElem_map]
    split <;> rfl
  · intro i h1 h2
    simp only [update_series_posts_count_del, List.getElem_map]
    split <;> rfl
  · intro i h1 h2
    simp only [update_series_posts_count_ins, List.getElem_map]
    split <;> rfl
  · intro i h1 h2
    simp only [update_series_posts_count_del, List.getElem_map]
    split <;> rfl
  · intro i h1 h2
    simp only [update_creator_series_count_ins, List.getElem_map]
    split <;> rfl
  · intro i h1 h2
    simp only [update_creator_series_count_del, List.getElem_map]
    split <;> rfl

/-- C4 witness: the unit-step equations and the nonnegativity
preservation evaluated on the concrete sample database. -/
theorem C4_trigger_unit_steps_witness :
    ((update_post_likes_count_ins sampleDB { post_id := 10, user_id := 3 }).posts.get
      ⟨0, by decide⟩).likes_count = 2 ∧
    ((update_post_likes_count_del sampleDB { post_id := 10, user_id := 2 }).posts.get
      ⟨0, by decide⟩).likes_count = 0 ∧
    ((update_post_likes_count_ins sampleDB { post_id := 10, user_id := 3 }).creator_profiles.get
      ⟨0, by decide⟩).likes_count = 2 ∧
    ((update_post_likes_count_del sampleDB { post_id := 10, user_id := 2 }).creator_profiles.get
      ⟨0, by decide⟩).likes_count = 0 ∧
    ((update_post_comments_count_ins sampleDB { post_id := 10, user_id := 3 }).posts.get
      ⟨0, by decide⟩).comments_count = 2 ∧
    ((update_post_comments_count_del sampleDB { post_id := 10, user_id := 2 }).posts.get
      ⟨0, by decide⟩).comments_count = 0 ∧
    ((update_followers_count_ins sampleDB { follower_id := 3, following_id := 1 }).creator_profiles.get
      ⟨0, by decide⟩).followers_count = 2 ∧
    ((update_followers_count_del sampleDB { follower_id := 2, following_id := 1 }).creator_profiles.get
      ⟨0, by decide⟩).followers_count = 0 ∧
    ((update_series_posts_count_ins sampleDB samplePostNew).series.get
      ⟨0, by decide⟩).posts_count = 2 ∧
    ((update_series_posts_count_del sampleDB samplePost).series.get
      ⟨0, by decide⟩).posts_count = 0 ∧
    ((update_series_posts_count_ins sampleDB samplePostNew).creator_profiles.get
      ⟨0, by decide⟩).posts_count = 2 ∧
    ((update_series_posts_count_del sampleDB samplePost).creator_profiles.get
      ⟨0, by decide⟩).posts_count = 0 ∧
    ((update_creator_series_count_ins sampleDB sampleSeriesNew).creator_profiles.get
      ⟨0, by decide⟩).series_count = 2 ∧
    ((update_creator_series_count_del sampleDB sampleSeries).creator_profiles.get
      ⟨0, by decide⟩).series_count = 0 ∧
    countersNonneg (update_post_likes_count_ins sampleDB { post_id := 10, user_id := 3 }) ∧
    countersNonneg (update_post_likes_count_del sampleDB { post_id := 10, user_id := 2 }) ∧
    countersNonneg (update_post_comments_count_ins sampleDB { post_id := 10, user_id := 3 }) ∧
    countersNonneg (update_post_comments_count_del sampleDB { post_id := 10, user_id := 2 }) ∧
    countersNonneg (update_followers_count_ins sampleDB { follower_id := 3, following_id := 1 }) ∧
    countersNonneg (update_followers_count_del sampleDB { follower_id := 2, following_id := 1 }) ∧
    countersNonneg (update_series_posts_count_ins sampleDB samplePostNew) ∧
    countersNonneg (update_series_posts_count_del sampleDB samplePost) ∧
    countersNonneg (update_creator_series_count_ins sampleDB sampleSeriesNew) ∧
    countersNonneg (update_creator_series_count_del sampleDB sampleSeries) := by
  have H := C4_trigger_unit_steps sampleDB
    { post_id := 10, user_id := 3 } { post_id := 10, user_id := 2 }
    { post_id := 10, user_id := 3 } { post_id := 10, user_id := 2 }
    { follower_id := 3, following_id := 1 } { follower_id := 2, following_id := 1 }
    samplePostNew samplePost sampleSeriesNew sampleSeries
  exact ⟨(H.1 0 (by decide) (by decide)).trans (by decide),
    (H.2.1 0 (by decide) (by decide)).trans (by decide),
    (H.2.2.1 0 (by decide) (by decide)).trans (by decide),
    (H.2.2.2.1 0 (by decide) (by decide)).trans (by decide),
    (H.2.2.2.2.1 0 (by decide) (by decide)).trans (by decide),
    (H.2.2.2.2.2.1 0 (by decide) (by decide)).trans (by decide),
    (H.2.2.2.2.2.2.1 0 (by decide) (by decide)).trans (by decide),
    (H.2.2.2.2.2.2.2.1 0 (by decide) (by decide)).trans (by decide),
    (H.2.2.2.2.2.2.2.2.1 0 (by decide) (by decide)).trans (by decide),
    (H.2.2.2.2.2.2.2.2.2.1 0 (by decide) (by decide)).trans (by decide),
    (H.2.2.2.2.2.2.2.2.2.2.1 0 (by decide) (by decide)).trans (by decide),
    (H.2.2.2.2.2.2.2.2.2.2.2.1 0 (by decide) (by decide)).trans (by decide),
    (H.2.2.2.2.2.2.2.2.2.2.2.2.1 0 (by decide) (by decide)).trans (by decide),
    (H.2.2.2.2.2.2.2.2.2.2.2.2.2.1 0 (by decide) (by decide)).trans (by decide),
    H.2.2.2.2.2.2.2.2.2.2.2.2.2.2.1 (by decide),
    H.2.2.2.2.2.2.2.2.2.2.2.2.2.2.2.1 (by decide),
    H.2.2.2.2.2.2.2.2.2.2.2.2.2.2.2.2.1 (by decide),
    H.2.2.2.2.2.2.2.2.2.2.2.2.2.2.2.2.2.1 (by decide),
    H.2.2.2.2.2.2.2.2.2.2.2.2.2.2.2.2.2.2.1 (by decide),
    H.2.2.2.2.2.2.2.2.2.2.2.2.2.2.2.2.2.2.2.1 (by decide),
    H.2.2.2.2.2.2.2.2.2.2.2.2.2.2.2.2.2.2.2.2.1 (by decide),
    H.2.2.2.2.2.2.2.2.2.2.2.2.2.2.2.2.2.2.2.2.2.1 (by decide),
    H.2.2.2.2.2.2.2.2.2.2.2.2.2.2.2.2.2.2.2.2.2.2.1 (by decide),
    H.2.2.2.2.2.2.2.2.2.2.2.2.2.2.2.2.2.2.2.2.2.2.2 (by decide)⟩

/-- C2: evaluation of `get_creator_stats` at the failing input.  For a
creator with exactly one completed transaction of amount 100 and two
non-deleted posts, the function returns `total_earnings = 200` because
the `SUM` runs over the left-join fan-out (one joined row per post),
while the sum of the creator's completed transaction amounts, each
counted once, is 100. -/
theorem C2_creator_stats_fanout :
    getCreatorStatsTotalEarnings fanoutDB 7 = some 200 ∧
    specTotalEarnings fanoutDB 7 = 100 ∧ (200 : Int) ≠ 100 := by
  refine ⟨by decide, by decide, by decide⟩

/-- C3 counterexample: after a successful `handleSupport` of amount 100
the client holds `total_earnings = 100`, yet no `creator_profiles` row
of the post-operation database carries that value (the inserted
transaction is `pending` and no trigger touches `total_earnings`), so
the held counter was produced by client-side arithmetic on the previous
value, not read from a trigger-maintained row. -/
theorem C3_client_counter_not_from_db :
    (handleSupportUpdate sampleDB 2 1 100 none
      { followers_count := 1, total_earnings := 0, supporters_count := 0 }).2.total_earnings
      = 100 ∧
    ∀ cp ∈ (handleSupportUpdate sampleDB 2 1 100 none
      { followers_count := 1, total_earnings := 0, supporters_count := 0 }).1.creator_profiles,
      cp.total_earnings ≠ 100 := by
  refine ⟨by decide, by decide⟩

/-- C3 (amended): the database counters are maintained by triggers, but
after follow/unfollow, like/unlike and support the client rewrites the
counter it holds with client-side arithmetic on the previous value
(`Math.max(0, n - 1)`, `n + 1`, `total_earnings + amount`,
`supporters_count + 1`) without re-fetching; the support path inserts a
`pending` transaction and leaves `creator_profiles` untouched. -/
theorem C3_amended_client_arithmetic (cp : ClientCreatorProfile) (amt lc : Int) (db : DB)
    (sup cr : Nat) (msg : Option String) :
    (handleFollowUpdate false cp).2.followers_count = cp.followers_count + 1 ∧
    (handleFollowUpdate true cp).2.followers_count = max 0 (cp.followers_count - 1) ∧
    (handleFollowUpdate false cp).1 = true ∧
    (handleFollowUpdate true cp).1 = false ∧
    (handleSupportUpdate db sup cr amt msg cp).2.total_earnings = cp.total_earnings + amt ∧
    (handleSupportUpdate db sup cr amt msg cp).2.supporters_count = cp.supporters_count + 1 ∧
    (handleSupportUpdate db sup cr amt msg cp).1.creator_profiles = db.creator_profiles ∧
    (handleSupportUpdate db sup cr amt msg cp).1.supporter_transactions
      = { supporter_id := sup, creator_id := cr, amount := amt, status := "pending" }
        :: db.supporter_transactions ∧
    (handleLikeUpdate false lc).2 = lc + 1 ∧
    (handleLikeUpdate true lc).2 = max 0 (lc - 1) :=
  ⟨rfl, rfl, rfl, rfl, rfl, rfl, rfl, rfl, rfl, rfl⟩

/-- C7: when the posts query returns a provider error, `fetchPosts` logs
the error, leaves the `posts` state unchanged, and has issued exactly
one database query — no retry. -/
theorem C7_fetchPosts_error_path (prev : Option (List PostRow)) (m : String) :
    (fetchPosts prev (QueryResult.err m)).1 = prev ∧
    (fetchPosts prev (QueryResult.err m)).2.1 = ["Error fetching posts: " ++ m] ∧
    (fetchPosts prev (QueryResult.err m)).2.2 = 1 :=
  ⟨rfl, rfl, rfl⟩

/-- C8: after an auth state change the local state mirrors the delivered
session — `user` is the session's user (or `null`), a missing session
clears `user`, `userProfile` and `creatorProfile`, and a present session
initiates a profile fetch for that session's user id. -/
theorem C8_auth_state_mirrors_session (s : AuthState) (session : Option SessionObj) :
    (onAuthStateChange s session).1.user = session.map (fun ss => ss.user) ∧
    (onAuthStateChange s session).1.session = session ∧
    (session = none →
      (onAuthStateChange s session).1.user = none ∧
      (onAuthStateChange s session).1.userProfile = none ∧
      (onAuthStateChange s session).1.creatorProfile = none ∧
      (onAuthStateChange s session).2 = none) ∧
    (∀ sess : SessionObj, session = some sess →
      (onAuthStateChange s session).1.user = some sess.user ∧
      (onAuthStateChange s session).2 = some sess.user.id) := by
  cases session with
  | none => simp [onAuthStateChange]
  | some sess => simp [onAuthStateChange]

/-- C8 witness: the mirroring statements applied to a concrete stale
state for both a missing and a present session. -/
theorem C8_auth_state_mirrors_session_witness :
    (onAuthStateChange
      { session := none, user := none, userProfile := some 9, creatorProfile := some 9,
        loading := true } none).1.userProfile = none ∧
    (onAuthStateChange
      { session := none, user := none, userProfile := some 9, creatorProfile := some 9,
        loading := true } (some { user := { id := 5 } })).2 = some 5 := by
  have H1 := C8_auth_state_mirrors_session
    { session := none, user := none, userProfile := some 9, creatorProfile := some 9,
      loading := true } none
  have H2 := C8_auth_state_mirrors_session
    { session := none, user := none, userProfile := some 9, creatorProfile := some 9,
      loading := true } (some { user := { id := 5 } })
  exact ⟨(H1.2.2.1 rfl).2.1, (H2.2.2.2 { user := { id := 5 } } rfl).2⟩

/-- The removal loop attempts exactly the joined item paths, in order,
and classifies every item as removed or skipped. -/
theorem cleanupLoop_attempts (cwd : String) (items : List String) (fs : FS) :
    (cleanupLoop cwd items fs).attempted = items.map (joinPath cwd) ∧
    (cleanupLoop cwd items fs).removedCount + (cleanupLoop cwd items fs).skippedCount
      = items.length := by
  induction items generalizing fs with
  | nil => exact ⟨rfl, rfl⟩
  | cons a t ih =>
    simp only [cleanupLoop]
    by_cases hstep : (removeRecursive fs (joinPath cwd a)).2 = true
    · simp only [hstep, if_true]
      refine ⟨?_, ?_⟩
      · simp [(ih (removeRecursive fs (joinPath cwd a)).1).1]
      · have := (ih (removeRecursive fs (joinPath cwd a)).1).2
        simp only [List.length_cons]
        omega
    · rw [Bool.not_eq_true] at hstep
      simp only [hstep, Bool.false_eq_true, if_false]
      refine ⟨?_, ?_⟩
      · simp [(ih (removeRecursive fs (joinPath cwd a)).1).1]
      · have := (ih (removeRecursive fs (joinPath cwd a)).1).2
        simp only [List.length_cons]
        omega

/-- C10: the cleanup script's destructive branch is unreachable unless
the lowercased confirmation answer is exactly `yes` — any other answer
leaves the filesystem untouched with nothing attempted — and on
confirmation it attempts removal of exactly the six `itemsToRemove`
paths and nothing else, with `removedCount + skippedCount = 6`. -/
theorem C10_cleanup_requires_yes (cwd answer : String) (fs : FS) :
    (jsToLower answer ≠ "yes" →
      (cleanupMain cwd answer fs).fs = fs ∧
      (cleanupMain cwd answer fs).attempted = [] ∧
      (cleanupMain cwd answer fs).removedCount = 0 ∧
      (cleanupMain cwd answer fs).skippedCount = 0) ∧
    (jsToLower answer = "yes" →
      (cleanupMain cwd answer fs).attempted = itemsToRemove.map (joinPath cwd) ∧
      (cleanupMain cwd answer fs).removedCount + (cleanupMain cwd answer fs).skippedCount
        = 6) := by
  constructor
  · intro hno
    simp only [cleanupMain, if_pos hno]
    exact ⟨trivial, trivial, trivial, trivial⟩
  · intro hyes
    have hcond : ¬(jsToLower answer ≠ "yes") := fun hk => hk hyes
    simp only [cleanupMain, if_neg hcond]
    refine ⟨(cleanupLoop_attempts cwd itemsToRemove fs).1, ?_⟩
    have := (cleanupLoop_attempts cwd itemsToRemove fs).2
    simpa using this

/-- C10 witness: a declined run changes nothing and a confirmed run
attempts exactly the six paths. -/
theorem C10_cleanup_requires_yes_witness :
    (cleanupMain "/r" "no" ["/r/backend"]).fs = ["/r/backend"] ∧
    (cleanupMain "/r" "no" ["/r/backend"]).attempted = [] ∧
    (cleanupMain "/r" "YES" ["/r/backend"]).attempted
      = itemsToRemove.map (joinPath "/r") ∧
    (cleanupMain "/r" "YES" ["/r/backend"]).removedCount
      + (cleanupMain "/r" "YES" ["/r/backend"]).skippedCount = 6 := by
  have H1 := C10_cleanup_requires_yes "/r" "no" ["/r/backend"]
  have H2 := C10_cleanup_requires_yes "/r" "YES" ["/r/backend"]
  exact ⟨(H1.1 (by decide)).1, (H1.1 (by decide)).2.1,
    (H2.2 (by decide)).1, (H2.2 (by decide)).2⟩

/-- A kept character that is not whitespace is a slug character. -/
theorem slugChar_of_keep (c : Char) (hk : keepChar c = true) (hw : isJsWs c = false) :
    isSlugChar c = true := by
  unfold keepChar at hk
  unfold isSlugChar
  simp only [decide_eq_true_eq] at hk ⊢
  rcases hk with h | h | h | h
  · exact Or.inl h
  · exact Or.inr (Or.inl h)
  · rw [hw] at h
    exact absurd h (by simp)
  · exact Or.inr (Or.inr h)

/-- Whitespace collapsing turns a list of kept characters into slug
characters with no whitespace left. -/
theorem collapseWs_props (l : List Char) :
    ∀ b : Bool, (∀ c ∈ l, keepChar c = true) →
      ∀ c ∈ collapseWsAux b l, isSlugChar c = true ∧ isJsWs c = false := by
  induction l with
  | nil => intro b _ c hc; simp [collapseWsAux] at hc
  | cons a t ih =>
    intro b h c hc
    have ha : keepChar a = true := h a (List.mem_cons_self a t)
    have ht : ∀ x ∈ t, keepChar x = true := fun x hx => h x (List.mem_cons_of_mem a hx)
    rw [collapseWsAux] at hc
    by_cases hws : isJsWs a = true
    · rw [if_pos hws] at hc
      by_cases hb : b = true
      · rw [if_pos hb] at hc
        exact ih true ht c hc
      · rw [Bool.not_eq_true] at hb
        rw [hb] at hc
        simp only [Bool.false_eq_true, if_false, List.mem_cons] at hc
        rcases hc with rfl | hc
        · exact ⟨by decide, by decide⟩
        · exact ih true ht c hc
    · rw [Bool.not_eq_true] at hws
      rw [if_neg (by simp [hws])] at hc
      simp only [List.mem_cons] at hc
      rcases hc with rfl | hc
      · exact ⟨slugChar_of_keep c ha hws, hws⟩
      · exact ih false ht c hc

/-- Hyphen collapsing only emits characters of its input. -/
theorem collapseDash_subset (l : List Char) :
    ∀ b : Bool, ∀ c ∈ collapseDashAux b l, c ∈ l := by
  induction l with
  | nil => intro b c hc; simp [collapseDashAux] at hc
  | cons a t ih =>
    intro b c hc
    rw [collapseDashAux] at hc
    by_cases hd : a = '-'
    · rw [if_pos hd] at hc
      by_cases hb : b = true
      · rw [if_pos hb] at hc
        exact List.mem_cons_of_mem a (ih true c hc)
      · rw [Bool.not_eq_true] at hb
        rw [hb] at hc
        simp only [Bool.false_eq_true, if_false, List.mem_cons] at hc
        rcases hc with rfl | hc
        · exact hd ▸ List.mem_cons_self a t
        · exact List.mem_cons_of_mem a (ih true c hc)
    · rw [if_neg hd] at hc
      simp only [List.mem_cons] at hc
      rcases hc with rfl | hc
      · exact List.mem_cons_self c t
      · exact List.mem_cons_of_mem a (ih false c hc)

/-- Hyphen collapsing never emits two consecutive hyphens, and with the
flag set its output never starts with a hyphen. -/
theorem collapseDash_spec (l : List Char) :
    ∀ b : Bool, hasDoubleDash (collapseDashAux b l) = false ∧
      (b = true → (collapseDashAux b l).head? ≠ some '-') := by
  induction l with
  | nil => intro b; exact ⟨rfl, fun _ => by simp [collapseDashAux]⟩
  | cons a t ih =>
    intro b
    rw [collapseDashAux]
    by_cases hd : a = '-'
    · rw [if_pos hd]
      by_cases hb : b = true
      · rw [if_pos hb]
        exact ⟨(ih true).1, fun _ => (ih true).2 rfl⟩
      · rw [Bool.not_eq_true] at hb
        rw [hb]
        simp only [Bool.false_eq_true, if_false]
        refine ⟨?_, fun hcon => by simp at hcon⟩
        cases hrest : collapseDashAux true t with
        | nil => rfl
        | cons c2 r2 =>
          have hdd := (ih true).1
          have hh := (ih true).2 rfl
          rw [hrest] at hdd hh
          have hc2 : ¬(c2 = '-') := by
            intro hc2
            exact hh (by rw [hc2]; rfl)
          rw [hasDoubleDash]
          simp [hc2, hdd]
    · rw [if_neg hd]
      refine ⟨?_, fun _ => by
        simp only [List.head?]
        intro hcon
        exact hd (by injection hcon)⟩
      cases hrest : collapseDashAux false t with
      | nil => rfl
      | cons c2 r2 =>
        have hdd := (ih false).1
        rw [hrest] at hdd
        rw [hasDoubleDash]
        simp [hd, hdd]

/-- Dropping leading whitespace from a whitespace-free list is the
identity. -/
theorem dropWhile_no_ws (l : List Char) (h : ∀ c ∈ l, isJsWs c = false) :
    l.dropWhile isJsWs = l := by
  cases l with
  | nil => rfl
  | cons a t =>
    rw [List.dropWhile_cons, if_neg]
    rw [h a (List.mem_cons_self a t)]
    simp

/-- Trimming a whitespace-free list is the identity. -/
theorem jsTrim_no_ws (l : List Char) (h : ∀ c ∈ l, isJsWs c = false) :
    jsTrim l = l := by
  unfold jsTrim
  rw [dropWhile_no_ws l h,
    dropWhile_no_ws l.reverse (fun c hc => h c (List.mem_reverse.1 hc)),
    List.reverse_reverse]

/-- C9: for every title, the slug generated by the post form's
`handleSubmit` contains only lowercase ASCII letters, digits and
hyphens, and never contains two consecutive hyphens. -/
theorem C9_slug_charset_no_double_dash (title : String) :
    (∀ c ∈ generateSlug title, isSlugChar c = true) ∧
    hasDoubleDash (generateSlug title) = false := by
  have h1 : ∀ c ∈ (title.data.map Char.toLower).filter keepChar, keepChar c = true :=
    fun c hc => (List.mem_filter.1 hc).2
  have h2 := collapseWs_props ((title.data.map Char.toLower).filter keepChar) false h1
  have h3sub := collapseDash_subset
    (collapseWsAux false ((title.data.map Char.toLower).filter keepChar)) false
  have h3ws : ∀ c ∈ collapseDashAux false
      (collapseWsAux false ((title.data.map Char.toLower).filter keepChar)),
      isJsWs c = false := fun c hc => (h2 c (h3sub c hc)).2
  have hgen : generateSlug title = collapseDashAux false
      (collapseWsAux false ((title.data.map Char.toLower).filter keepChar)) := by
    unfold generateSlug
    exact jsTrim_no_ws _ h3ws
  constructor
  · intro c hc
    rw [hgen] at hc
    exact (h2 c (h3sub c hc)).1
  · rw [hgen]
    exact (collapseDash_spec
      (collapseWsAux false ((title.data.map Char.toLower).filter keepChar)) false).1

/-- C9 witness: the slug properties evaluated on a concrete title. -/
theorem C9_slug_charset_witness :
    (isSlugChar 'h' = true) ∧
    hasDoubleDash (generateSlug "Hello,  World -- Test!") = false := by
  have H := C9_slug_charset_no_double_dash "Hello,  World -- Test!"
  exact ⟨H.1 'h' (by decide), H.2⟩

/-- `feedLe` is transitive. -/
theorem feedLe_trans : ∀ a b c : FeedRow,
    feedLe a b = true → feedLe b c = true → feedLe a c = true := by
  intro a b c hab hbc
  simp only [feedLe, decide_eq_true_eq] at hab hbc ⊢
  omega

/-- `feedLe` is total. -/
theorem feedLe_total : ∀ a b : FeedRow, (feedLe a b || feedLe b a) = true := by
  intro a b
  simp only [feedLe, Bool.or_eq_true, decide_eq_true_eq]
  omega

/-- Membership in the discovery join characterizes the underlying
post. -/
theorem mem_discoveryJoinRows (db : DB) (u : Nat) (r : FeedRow)
    (hr : r ∈ discoveryJoinRows db u) :
    ∃ p ∈ db.posts, p.id = r.post_id ∧ p.created_at = r.post_created_at ∧
      p.is_published = true ∧ p.deleted_at = none ∧
      ∃ s ∈ db.series, p.series_id = some s.id ∧ s.deleted_at = none := by
  unfold discoveryJoinRows at hr
  rw [List.mem_flatMap] at hr
  obtain ⟨p, hp, hr⟩ := hr
  rw [List.mem_flatMap] at hr
  obtain ⟨uu, _, hr⟩ := hr
  rw [List.mem_flatMap] at hr
  obtain ⟨s, hsmem, hr⟩ := hr
  by_cases hcond : p.user_id = uu.id ∧ p.series_id = some s.id ∧
      p.is_published = true ∧ p.deleted_at = none ∧ s.deleted_at = none
  · rw [if_pos hcond] at hr
    simp only [List.mem_singleton] at hr
    subst hr
    exact ⟨p, hp, rfl, rfl, hcond.2.2.1, hcond.2.2.2.1,
      s, hsmem, hcond.2.1, hcond.2.2.2.2⟩
  · rw [if_neg hcond] at hr
    simp at hr

/-- Membership in the user-feed join characterizes the underlying post
and the follow edge. -/
theorem mem_userFeedJoinRows (db : DB) (u : Nat) (r : FeedRow)
    (hr : r ∈ userFeedJoinRows db u) :
    ∃ p ∈ db.posts, p.id = r.post_id ∧ p.created_at = r.post_created_at ∧
      p.is_published = true ∧ p.deleted_at = none ∧
      ∃ f ∈ db.follows, f.follower_id = u ∧ f.following_id = p.user_id := by
  unfold userFeedJoinRows at hr
  rw [List.mem_flatMap] at hr
  obtain ⟨p, hp, hr⟩ := hr
  rw [List.mem_flatMap] at hr
  obtain ⟨uu, _, hr⟩ := hr
  rw [List.mem_flatMap] at hr
  obtain ⟨s, hsmem, hr⟩ := hr
  rw [List.mem_flatMap] at hr
  obtain ⟨f, hfmem, hr⟩ := hr
  by_cases hcond : p.user_id = uu.id ∧ p.series_id = some s.id ∧
      f.following_id = p.user_id ∧ f.follower_id = u ∧
      p.is_published = true ∧ p.deleted_at = none ∧ s.deleted_at = none
  · rw [if_pos hcond] at hr
    simp only [List.mem_singleton] at hr
    subst hr
    exact ⟨p, hp, rfl, rfl, hcond.2.2.2.2.1, hcond.2.2.2.2.2.1,
      f, hfmem, hcond.2.2.2.1, hcond.2.2.1⟩
  · rw [if_neg hcond] at hr
    simp at hr

/-- C5: `get_discovery_feed` returns at most `feed_limit` rows, every
returned row corresponds to a published, non-deleted post whose series
is not deleted, and the rows are ordered by post `created_at`
descending (the function applies nothing beyond this filter, this
ordering and the limit). -/
theorem C5_discovery_feed_shape (db : DB) (user_uuid feed_limit : Nat) :
    (get_discovery_feed db user_uuid feed_limit).length ≤ feed_limit ∧
    (∀ r ∈ get_discovery_feed db user_uuid feed_limit,
      ∃ p ∈ db.posts, p.id = r.post_id ∧ p.created_at = r.post_created_at ∧
        p.is_published = true ∧ p.deleted_at = none ∧
        ∃ s ∈ db.series, p.series_id = some s.id ∧ s.deleted_at = none) ∧
    List.Pairwise (fun a b => b.post_created_at ≤ a.post_created_at)
      (get_discovery_feed db user_uuid feed_limit) := by
  refine ⟨?_, ?_, ?_⟩
  · rw [get_discovery_feed, List.length_take]
    exact min_le_left _ _
  · intro r hr
    have hr2 : r ∈ (discoveryJoinRows db user_uuid).mergeSort feedLe :=
      List.mem_of_mem_take hr
    have hr3 : r ∈ discoveryJoinRows db user_uuid :=
      (List.mergeSort_perm (discoveryJoinRows db user_uuid) feedLe).mem_iff.1 hr2
    exact mem_discoveryJoinRows db user_uuid r hr3
  · have hsorted := List.sorted_mergeSort feedLe_trans feedLe_total
      (discoveryJoinRows db user_uuid)
    have hsorted2 : List.Pairwise (fun a b => b.post_created_at ≤ a.post_created_at)
        ((discoveryJoinRows db user_uuid).mergeSort feedLe) :=
      hsorted.imp (fun h => by simpa [feedLe] using h)
    exact hsorted2.sublist (List.take_sublist _ _)

/-- C6: every row of `get_user_feed` is a published, non-deleted post by
a creator the user follows; the rows are ordered by post `created_at`
descending; and after the first `feed_offset` rows of that ordering are
skipped at most `feed_limit` rows are returned. -/
theorem C6_user_feed_shape (db : DB) (user_uuid feed_limit feed_offset : Nat) :
    (get_user_feed db user_uuid feed_limit feed_offset).length ≤ feed_limit ∧
    (∀ r ∈ get_user_feed db user_uuid feed_limit feed_offset,
      ∃ p ∈ db.posts, p.id = r.post_id ∧ p.created_at = r.post_created_at ∧
        p.is_published = true ∧ p.deleted_at = none ∧
        ∃ f ∈ db.follows, f.follower_id = user_uuid ∧ f.following_id = p.user_id) ∧
    List.Pairwise (fun a b => b.post_created_at ≤ a.post_created_at)
      (get_user_feed db user_uuid feed_limit feed_offset) ∧
    get_user_feed db user_uuid feed_limit feed_offset
      = (((userFeedJoinRows db user_uuid).mergeSort feedLe).drop feed_offset).take feed_limit := by
  refine ⟨?_, ?_, ?_, rfl⟩
  · rw [get_user_feed, List.length_take]
    exact min_le_left _ _
  · intro r hr
    have hr2 : r ∈ ((userFeedJoinRows db user_uuid).mergeSort feedLe).drop feed_offset :=
      List.mem_of_mem_take hr
    have hr3 : r ∈ (userFeedJoinRows db user_uuid).mergeSort feedLe :=
      List.mem_of_mem_drop hr2
    have hr4 : r ∈ userFeedJoinRows db user_uuid :=
      (List.mergeSort_perm (userFeedJoinRows db user_uuid) feedLe).mem_iff.1 hr3
    exact mem_userFeedJoinRows db user_uuid r hr4
  · have hsorted := List.sorted_mergeSort feedLe_trans feedLe_total
      (userFeedJoinRows db user_uuid)
    have hsorted2 : List.Pairwise (fun a b => b.post_created_at ≤ a.post_created_at)
        ((userFeedJoinRows db user_uuid).mergeSort feedLe) :=
      hsorted.imp (fun h => by simpa [feedLe] using h)
    exact hsorted2.sublist
      ((List.take_sublist _ _).trans (List.drop_sublist _ _))

/-- C5 witness: the discovery-feed properties on the sample database,
instantiated at the one row the feed returns. -/
theorem C5_discovery_feed_shape_witness :
    (get_discovery_feed sampleDB 2 10).length ≤ 10 ∧
    (∃ p ∈ sampleDB.posts, p.id = (feedRowOf sampleDB 2 samplePost).post_id ∧
      p.created_at = (feedRowOf sampleDB 2 samplePost).post_created_at ∧
      p.is_published = true ∧ p.deleted_at = none ∧
      ∃ s ∈ sampleDB.series, p.series_id = some s.id ∧ s.deleted_at = none) := by
  have H := C5_discovery_feed_shape sampleDB 2 10
  have hjoin : discoveryJoinRows sampleDB 2 = [feedRowOf sampleDB 2 samplePost] := by decide
  have hperm := List.mergeSort_perm (discoveryJoinRows sampleDB 2) feedLe
  rw [hjoin] at hperm
  have hsort := List.perm_singleton.1 hperm
  refine ⟨H.1, H.2.1 (feedRowOf sampleDB 2 samplePost) ?_⟩
  rw [get_discovery_feed, hjoin, hsort]
  simp

/-- C6 witness: the user-feed properties on the sample database, where
user 2 follows creator 1, instantiated at the one row the feed
returns. -/
theorem C6_user_feed_shape_witness :
    (get_user_feed sampleDB 2 10 0).length ≤ 10 ∧
    (∃ p ∈ sampleDB.posts, p.id = (feedRowOf sampleDB 2 samplePost).post_id ∧
      p.created_at = (feedRowOf sampleDB 2 samplePost).post_created_at ∧
      p.is_published = true ∧ p.deleted_at = none ∧
      ∃ f ∈ sampleDB.follows, f.follower_id = 2 ∧ f.following_id = p.user_id) := by
  have H := C6_user_feed_shape sampleDB 2 10 0
  have hjoin : userFeedJoinRows sampleDB 2 = [feedRowOf sampleDB 2 samplePost] := by decide
  have hperm := List.mergeSort_perm (userFeedJoinRows sampleDB 2) feedLe
  rw [hjoin] at hperm
  have hsort := List.perm_singleton.1 hperm
  refine ⟨H.1, H.2.1 (feedRowOf sampleDB 2 samplePost) ?_⟩
  rw [get_user_feed, hjoin, hsort]
  simp
